import Mathlib

/-!
Shallow embedding of the realtime fast-mixer worker loop
(`services/audioflinger/FastMixer.cpp`, `FastMixer::threadLoop`) and of the
telemetry structure `FastMixerDumpState`.

One iteration of the worker's `for (;;)` loop is modelled by `android.step`:
it consumes the worker-local state (`android.WorkerState`, the locals declared
at the top of `threadLoop`) together with one cycle's environment inputs
(`android.CycleInput`: the polled snapshot, the pre-decrement value of the
cold futex word, the monotonic-clock read, the sink write result, and the
per-track volume words), and produces the next worker-local state plus the
list of externally observable actions performed during the cycle
(`android.Event`: atomic/futex operations, mixing-engine calls, buffer
zeroing, and sink writes).

Pointer identity of state snapshots (the queue returns `const FastMixerState *`
values that are compared by address) is modelled by tagging each snapshot
value with its address (`android.Snap`).  The worker-local `preIdle` copy
lives at the reserved address `preIdleAddr`; the built-in `initial` state at
address 0.  Unsigned 32-bit arithmetic of the C++ code is modelled on `Nat`
with explicit reduction `w32` modulo `2^32`; the `while`-loops driven by
`__builtin_ctz` over track bit-masks are modelled by structurally recursive
functions with 32 units of fuel (a 32-bit mask has at most 32 set bits).
The debug-only blocks guarded by `#if !LOG_NDEBUG` (resetting released track
handles to -1) are included, matching the LOG_NDEBUG == 0 build of the file.
The `#ifdef FAST_MIXER_STATISTICS` accumulator is not part of any claim and
is omitted.  `ALOG_ASSERT`/`ALOGV` are logging/assertion macros with no
effect on the modelled state and are omitted.
-/

namespace android

/-- Reduction modulo 2^32: the value of an `unsigned`/`uint32_t` expression. -/
def w32 (n : Nat) : Nat := n % 4294967296

/-- 32-bit complement `~m` of an unsigned word. -/
def not32 (m : Nat) : Nat := Nat.xor 4294967295 (w32 m)

/-- `__builtin_ctz`, with structural fuel (valid for 32-bit arguments). -/
def ctzAux : Nat → Nat → Nat
  | 0, _ => 0
  | fuel + 1, n => if n % 2 = 1 then 0 else ctzAux fuel (n / 2) + 1

/-- Count trailing zeros of a nonzero 32-bit word. -/
def ctz (n : Nat) : Nat := ctzAux 32 n

/-- `popcount`, with structural fuel (valid for 32-bit arguments). -/
def popcountAux : Nat → Nat → Nat
  | 0, _ => 0
  | fuel + 1, n => n % 2 + popcountAux fuel (n / 2)

/-- Number of set bits of a 32-bit word. -/
def popcount (n : Nat) : Nat := popcountAux 32 n

/-- Modelled from the spec: the `FastMixerState::Command` enumeration lives in
`FastMixerState.h`, which is not among the provided sources.  Per the spec,
MIX and WRITE are bit-flags with MIX_WRITE = MIX|WRITE, and an IDLE bit-flag
is shared by HOT_IDLE and COLD_IDLE (INITIAL and EXIT carry none of these
flags).  The enumeration is modelled as an inductive type and the bit tests
`command & IDLE`, `command & MIX`, `command & WRITE` as the three Boolean
projections below. -/
inductive Command
  | INITIAL
  | HOT_IDLE
  | COLD_IDLE
  | EXIT
  | MIX
  | WRITE
  | MIX_WRITE
  deriving DecidableEq

/-- The bit test `command & FastMixerState::IDLE`. -/
def Command.isIdle : Command → Bool
  | .HOT_IDLE => true
  | .COLD_IDLE => true
  | _ => false

/-- The bit test `command & FastMixerState::MIX`. -/
def Command.hasMix : Command → Bool
  | .MIX => true
  | .MIX_WRITE => true
  | _ => false

/-- The bit test `command & FastMixerState::WRITE`. -/
def Command.hasWrite : Command → Bool
  | .WRITE => true
  | .MIX_WRITE => true
  | _ => false

/-- One fast track slot of a published state: its buffer provider and volume
provider pointers (addresses, `none` = NULL) and its generation counter. -/
structure FastTrack where
  mBufferProvider : Option Nat
  mVolumeProvider : Option Nat
  mGeneration : Int

/-- An NBAIO format, compared by value; `Format_Invalid` is the invalid one.
`Format_sampleRate`/`Format_channelCount` are the two projections. -/
structure NBAIO_Format where
  id : Nat
  sampleRate : Nat
  channelCount : Nat
  deriving DecidableEq

/-- The invalid format. -/
def Format_Invalid : NBAIO_Format := ⟨0, 0, 0⟩

/-- An output sink (`NBAIO_Sink`): only its reported format matters here. -/
structure Sink where
  format : NBAIO_Format
  deriving DecidableEq

/-- A published `FastMixerState` snapshot (the fields read by `threadLoop`). -/
structure FastMixerState where
  mCommand : Command
  mFastTracks : Nat → FastTrack
  mTrackMask : Nat
  mFastTracksGen : Int
  mFrameCount : Nat
  mOutputSink : Option Sink
  mOutputSinkGen : Int
  mColdFutexAddr : Option Nat
  mColdGen : Nat
  mDumpState : Option Nat

/-- A snapshot together with its address, so that the pointer comparisons
`next != current` and `current != previous` of the source can be expressed. -/
structure Snap where
  addr : Nat
  st : FastMixerState

/-- Modelled from the spec: `kMaxFastTracks` is declared in
`FastMixerState.h`, which is not among the provided sources; the spec bounds
it by 32 (the active set fits in one 32-bit mask word) and the boundary
section exercises exactly 32 active tracks. -/
def kMaxFastTracks : Nat := 32

/-- Modelled from the spec: the default `FastMixerState` constructor
(`FastMixerState.cpp` is not among the provided sources).  The spec's
built-in initial state carries command INITIAL, an empty track table, zero
generations, zero frame count and null sink, futex and dump pointers. -/
def initialState : FastMixerState :=
  { mCommand := .INITIAL
  , mFastTracks := fun _ => ⟨none, none, 0⟩
  , mTrackMask := 0
  , mFastTracksGen := 0
  , mFrameCount := 0
  , mOutputSink := none
  , mOutputSinkGen := 0
  , mColdFutexAddr := none
  , mColdGen := 0
  , mDumpState := none }

/-- Address of the static `initial` state. -/
def initialAddr : Nat := 0

/-- Address of the worker-local `preIdle` copy. -/
def preIdleAddr : Nat := 1

/-- The static `initial` snapshot. -/
def initialSnap : Snap := ⟨initialAddr, initialState⟩

/-- Modelled from the spec: the mixing engine (`AudioMixer`, whose header is
not among the provided sources) is an opaque handle allocator here; the spec
specifies `new(frame_count, sample_rate, max_tracks)` and opaque small
integer handles.  `nextName` yields the next handle `getTrackName` returns;
all other engine calls are recorded as events only. -/
structure AudioMixer where
  frameCount : Nat
  sampleRate : Nat
  maxNumTracks : Nat
  nextName : Nat
  deriving DecidableEq

/-- Parameter classes of `AudioMixer::setParameter`. -/
inductive ParamClass
  | TRACK
  | VOLUME
  deriving DecidableEq

/-- Parameter keys of `AudioMixer::setParameter`. -/
inductive ParamKey
  | MAIN_BUFFER
  | VOLUME0
  | VOLUME1
  deriving DecidableEq

/-- A parameter value: the mix buffer pointer or a plain integer. -/
inductive PVal
  | buf
  | num (n : Nat)
  deriving DecidableEq

/-- Abstract contents of the mix buffer: freshly allocated, zero-filled by
`memset`, or holding engine output from `process()`. -/
inductive BufContents
  | uninit
  | zeros
  | mixed
  deriving DecidableEq

/-- The `enum {UNDEFINED, MIXED, ZEROED} mixBufferState` of the source. -/
inductive MBState
  | UNDEFINED
  | MIXED
  | ZEROED
  deriving DecidableEq

/-- The telemetry counters of `FastMixerDumpState` (all `uint32_t`). -/
structure FastMixerDumpState where
  mCommand : Command
  mWriteSequence : Nat
  mFramesWritten : Nat
  mNumTracks : Nat
  mWriteErrors : Nat
  mUnderruns : Nat
  mOverruns : Nat
  deriving DecidableEq

/-- `FastMixerDumpState::FastMixerDumpState()` (source lines 401-408). -/
def dumpInit : FastMixerDumpState := ⟨.INITIAL, 0, 0, 0, 0, 0, 0⟩

/-- A `struct timespec`. -/
structure Timespec where
  tv_sec : Int
  tv_nsec : Int
  deriving DecidableEq

/-- One externally observable action of a cycle. -/
inductive Event
  | atomicDec (addr : Nat)
  | futexWait (addr : Nat) (val : Int)
  | deleteTrackName (name : Int)
  | getTrackName (name : Int)
  | setBufferProvider (name : Int) (provider : Nat)
  | setParameter (name : Int) (cls : ParamClass) (key : ParamKey) (v : PVal)
  | enable (name : Int)
  | process
  | zeroBuffer
  | writeSeqIncr
  | sinkWrite (frameCount : Nat) (contents : BufContents) (result : Int)
  | newMixer (frameCount : Nat) (sampleRate : Nat)
  | deleteMixer
  | newMixBuffer (frames : Nat)
  | deleteMixBuffer
  deriving DecidableEq

/-- Is this event the engine `process()` call? -/
def Event.isProcessEv : Event → Bool
  | .process => true
  | _ => false

/-- Is this event a sink `write()` call? -/
def Event.isWriteEv : Event → Bool
  | .sinkWrite _ _ _ => true
  | _ => false

/-- Is this event an engine instantiation? -/
def Event.isNewMixerEv : Event → Bool
  | .newMixer _ _ => true
  | _ => false

/-- Is this event an engine handle release? -/
def Event.isDeleteTrackEv : Event → Bool
  | .deleteTrackName _ => true
  | _ => false

/-- Is this event an engine handle allocation? -/
def Event.isGetTrackEv : Event → Bool
  | .getTrackName _ => true
  | _ => false

/-- Is this event an atomic decrement of the cold futex word? -/
def Event.isAtomicDecEv : Event → Bool
  | .atomicDec _ => true
  | _ => false

/-- Is this event a futex wait? -/
def Event.isFutexWaitEv : Event → Bool
  | .futexWait _ _ => true
  | _ => false

/-- The worker-local state: the locals of `threadLoop` (source lines 38-69)
that survive from one loop iteration to the next.  `dumps` maps each dump
area address (`none` = the worker's own `dummyDumpState`) to its contents;
`dumpAddr` is the area `dumpState` currently points to. -/
structure WorkerState where
  previous : Snap
  current : Snap
  preIdle : FastMixerState
  oldTs : Timespec
  oldTsValid : Bool
  sleepNs : Int
  fastTrackNames : Nat → Int
  generations : Nat → Int
  outputSink : Option Sink
  outputSinkGen : Int
  mixer : Option AudioMixer
  mixBuffer : Option BufContents
  mixBufferState : MBState
  format : NBAIO_Format
  sampleRate : Nat
  fastTracksGen : Int
  periodNs : Int
  underrunNs : Int
  overrunNs : Int
  dumpAddr : Option Nat
  dumps : Option Nat → FastMixerDumpState
  ignoreNextOverrun : Bool
  coldGen : Nat

/-- The environment inputs consumed during one loop iteration. -/
structure CycleInput where
  poll : Option Snap
  futexPre : Int
  clockOk : Bool
  newTs : Timespec
  writeResult : Int
  volumeLR : Nat → Nat

/-- The outcome of one loop iteration: either the loop continues with a new
worker-local state, or `threadLoop` returned false (EXIT).  Either way the
cycle's observable actions are listed in order. -/
inductive StepResult
  | next (s : WorkerState) (trace : List Event)
  | exited (trace : List Event)

/-- The trace of a step outcome. -/
def StepResult.trace : StepResult → List Event
  | .next _ tr => tr
  | .exited tr => tr

/-- The continuation state of a step outcome, if the loop continues. -/
def StepResult.toNext : StepResult → Option WorkerState
  | .next s _ => some s
  | .exited _ => none

/-- `FAST_HOT_IDLE_NS` (1 ms). -/
def FAST_HOT_IDLE_NS : Int := 1000000

/-- `FAST_DEFAULT_NS` (~1 s). -/
def FAST_DEFAULT_NS : Int := 999999999

/-- Update the dump area currently bound to `dumpState`. -/
def updDump (s : WorkerState) (f : FastMixerDumpState → FastMixerDumpState) :
    WorkerState :=
  { s with dumps := fun a => if a = s.dumpAddr then f (s.dumps a) else s.dumps a }

/-- The initial values of the `threadLoop` locals (source lines 38-69). -/
def initWorker : WorkerState :=
  { previous := initialSnap
  , current := initialSnap
  , preIdle := initialState
  , oldTs := ⟨0, 0⟩
  , oldTsValid := false
  , sleepNs := -1
  , fastTrackNames := fun _ => -1
  , generations := fun _ => 0
  , outputSink := none
  , outputSinkGen := 0
  , mixer := none
  , mixBuffer := none
  , mixBufferState := .UNDEFINED
  , format := Format_Invalid
  , sampleRate := 0
  , fastTracksGen := 0
  , periodNs := 0
  , underrunNs := 0
  , overrunNs := 0
  , dumpAddr := none
  , dumps := fun _ => dumpInit
  , ignoreNextOverrun := true
  , coldGen := 0 }

/-- The snapshot the cycle runs with: `mSQ.poll()` result, with NULL falling
back to `current` (source lines 87-92); a polled pointer equal to `current`
denotes the same object, hence the same snapshot value. -/
def pollNext (s : WorkerState) (inp : CycleInput) : Snap :=
  match inp.poll with
  | none => s.current
  | some sn => if sn.addr = s.current.addr then s.current else sn

/-- The state-change handling of source lines 95-119: on `next != current`,
rebind the dump area, update `previous` according to the transition kind
(non-idle to idle takes the by-value `preIdle` copy), and advance `current`
to the polled snapshot. -/
def transitionPhase (s : WorkerState) (next : Snap) : WorkerState :=
  if next.addr ≠ s.current.addr then
    let command := next.st.mCommand
    let s1 := { s with dumpAddr := next.st.mDumpState }
    let s2 :=
      if ! s1.current.st.mCommand.isIdle then
        let s3 :=
          if command.isIdle then
            { s1 with preIdle := s1.current.st
                    , current := ⟨preIdleAddr, s1.current.st⟩
                    , oldTsValid := false
                    , ignoreNextOverrun := true }
          else s1
        { s3 with previous := s3.current }
      else s1
    { s2 with current := next }
  else s

/-- The command of the snapshot the cycle runs with (source line 94). -/
def stepCommand (s : WorkerState) (inp : CycleInput) : Command :=
  (pollNext s inp).st.mCommand

/-- The worker-local state right after the poll and state-change handling
(and after `sleepNs` was defaulted at source line 84). -/
def afterPoll (s : WorkerState) (inp : CycleInput) : WorkerState :=
  transitionPhase { s with sleepNs := FAST_DEFAULT_NS } (pollNext s inp)

/-- The format and sample rate in effect after the output-sink rebinding of
source lines 167-179 (unchanged when `mOutputSinkGen` did not advance). -/
def sinkFormatAfter (s : WorkerState) : NBAIO_Format × Nat :=
  if s.current.st.mOutputSinkGen ≠ s.outputSinkGen then
    match s.current.st.mOutputSink with
    | none => (Format_Invalid, 0)
    | some sink => (sink.format, sink.format.sampleRate)
  else (s.format, s.sampleRate)

/-- Source lines 181-212: on a format or frame-count change, release the
engine and mix buffer; when both `frameCount > 0` and `sampleRate > 0`,
re-create them and recompute the period constants, else zero the constants.
Reset the buffer state, the track handles, and force `fastTracksGen` to
`current - 1` so every active track is treated as added. -/
def reconfigPhase (s : WorkerState) (frameCount : Nat) : WorkerState × List Event :=
  let delEvs := (if s.mixer.isSome then [Event.deleteMixer] else []) ++
                (if s.mixBuffer.isSome then [Event.deleteMixBuffer] else [])
  let s1 := { s with mixer := none, mixBuffer := none }
  let r :=
    if 0 < frameCount ∧ 0 < s1.sampleRate then
      ({ s1 with
          mixer := some ⟨frameCount, s1.sampleRate, kMaxFastTracks, 0⟩
        , mixBuffer := some .uninit
        , periodNs := ((frameCount * 1000000000) / s1.sampleRate : Nat)
        , underrunNs := ((frameCount * 1750000000) / s1.sampleRate : Nat)
        , overrunNs := ((frameCount * 250000000) / s1.sampleRate : Nat) },
       [Event.newMixer frameCount s1.sampleRate, Event.newMixBuffer frameCount])
    else
      ({ s1 with periodNs := 0, underrunNs := 0, overrunNs := 0 }, [])
  ({ r.1 with mixBufferState := .UNDEFINED
            , fastTrackNames := fun _ => -1
            , fastTracksGen := s.current.st.mFastTracksGen - 1 },
   delEvs ++ r.2)

/-- Source lines 221-235: release the engine handles of removed tracks and
record their generations (handle reset is the LOG_NDEBUG == 0 block). -/
def removedLoopAux (cur : FastMixerState) :
    Nat → Nat → WorkerState → WorkerState × List Event
  | 0, _, s => (s, [])
  | fuel + 1, mask, s =>
    if mask = 0 then (s, [])
    else
      let i := ctz mask
      let fastTrack := cur.mFastTracks i
      let evs :=
        match s.mixer with
        | some _ => [Event.deleteTrackName (s.fastTrackNames i)]
        | none => []
      let s1 :=
        match s.mixer with
        | some _ =>
          { s with fastTrackNames := fun j => if j = i then -1 else s.fastTrackNames j }
        | none => s
      let s2 := { s1 with
        generations := fun j => if j = i then fastTrack.mGeneration else s1.generations j }
      let r := removedLoopAux cur fuel (mask - 2 ^ i) s2
      (r.1, evs ++ r.2)

/-- The removed-tracks loop over a 32-bit mask. -/
def removedLoop (cur : FastMixerState) (mask : Nat) (s : WorkerState) :
    WorkerState × List Event :=
  removedLoopAux cur 32 mask s

/-- Source lines 238-256: allocate an engine handle for each added track,
bind its buffer provider and main buffer, enable it, record its generation. -/
def addedLoopAux (cur : FastMixerState) :
    Nat → Nat → WorkerState → WorkerState × List Event
  | 0, _, s => (s, [])
  | fuel + 1, mask, s =>
    if mask = 0 then (s, [])
    else
      let i := ctz mask
      let fastTrack := cur.mFastTracks i
      let (s1, evs) :=
        match s.mixer with
        | some m =>
          let name : Int := m.nextName
          ({ s with
              mixer := some { m with nextName := m.nextName + 1 }
            , fastTrackNames := fun j => if j = i then name else s.fastTrackNames j },
           [Event.getTrackName name,
            Event.setBufferProvider name (fastTrack.mBufferProvider.getD 0),
            Event.setParameter name .TRACK .MAIN_BUFFER .buf,
            Event.enable name])
        | none => (s, [])
      let s2 := { s1 with
        generations := fun j => if j = i then fastTrack.mGeneration else s1.generations j }
      let r := addedLoopAux cur fuel (mask - 2 ^ i) s2
      (r.1, evs ++ r.2)

/-- The added-tracks loop over a 32-bit mask. -/
def addedLoop (cur : FastMixerState) (mask : Nat) (s : WorkerState) :
    WorkerState × List Event :=
  addedLoopAux cur 32 mask s

/-- Source lines 260-282: for each retained track whose generation advanced,
re-bind its buffer provider and default its volumes when the volume provider
is absent, then record the new generation. -/
def modifiedLoopAux (cur : FastMixerState) :
    Nat → Nat → WorkerState → WorkerState × List Event
  | 0, _, s => (s, [])
  | fuel + 1, mask, s =>
    if mask = 0 then (s, [])
    else
      let i := ctz mask
      let fastTrack := cur.mFastTracks i
      let (s1, evs) :=
        if fastTrack.mGeneration ≠ s.generations i then
          let evs :=
            match s.mixer with
            | some _ =>
              [Event.setBufferProvider (s.fastTrackNames i)
                 (fastTrack.mBufferProvider.getD 0)] ++
              (match fastTrack.mVolumeProvider with
               | none =>
                 [Event.setParameter (s.fastTrackNames i) .VOLUME .VOLUME0 (.num 4096),
                  Event.setParameter (s.fastTrackNames i) .VOLUME .VOLUME1 (.num 4096)]
               | some _ => [])
            | none => []
          ({ s with
              generations := fun j => if j = i then fastTrack.mGeneration else s.generations j },
           evs)
        else (s, [])
      let r := modifiedLoopAux cur fuel (mask - 2 ^ i) s1
      (r.1, evs ++ r.2)

/-- The modified-tracks loop over a 32-bit mask. -/
def modifiedLoop (cur : FastMixerState) (mask : Nat) (s : WorkerState) :
    WorkerState × List Event :=
  modifiedLoopAux cur 32 mask s

/-- Source lines 215-287: when the track-table generation advanced, process
removed, then added, then modified tracks, store the new generation, and
publish the active track count. -/
def diffPhase (s : WorkerState) (previousTrackMask : Nat) : WorkerState × List Event :=
  let currentTrackMask := w32 s.current.st.mTrackMask
  if s.current.st.mFastTracksGen ≠ s.fastTracksGen then
    let ra := removedLoop s.current.st
      (Nat.land previousTrackMask (not32 currentTrackMask)) s
    let rb := addedLoop ra.1.current.st
      (Nat.land currentTrackMask (not32 previousTrackMask)) ra.1
    let rc := modifiedLoop rb.1.current.st
      (Nat.land currentTrackMask previousTrackMask) rb.1
    let sd := { rc.1 with fastTracksGen := rc.1.current.st.mFastTracksGen }
    (updDump sd fun d => { d with mNumTracks := popcount currentTrackMask },
     ra.2 ++ rb.2 ++ rc.2)
  else (s, [])

/-- Source lines 158-293: the non-idle state-change handling, entered when
`current != previous`: sink rebinding, reconfiguration, track diff, and the
final `previous = current` re-pinning. -/
def stateChange (s : WorkerState) : WorkerState × List Event :=
  let frameCount := s.current.st.mFrameCount
  let previousFormat := s.format
  let s1 :=
    if s.current.st.mOutputSinkGen ≠ s.outputSinkGen then
      { s with outputSink := s.current.st.mOutputSink
             , outputSinkGen := s.current.st.mOutputSinkGen
             , format := (sinkFormatAfter s).1
             , sampleRate := (sinkFormatAfter s).2 }
    else s
  let r1 :=
    if s1.format ≠ previousFormat ∨ frameCount ≠ s.previous.st.mFrameCount then
      let r0 := reconfigPhase s1 frameCount
      (r0.1, 0, r0.2)
    else (s1, w32 s.previous.st.mTrackMask, ([] : List Event))
  let r2 := diffPhase r1.1 r1.2.1
  ({ r2.1 with previous := r2.1.current }, r1.2.2 ++ r2.2)

/-- Source lines 299-313: push the packed left/right volumes of every active
track that has a volume provider to the engine. -/
def volumeLoopAux (cur : FastMixerState) (inp : CycleInput)
    (names : Nat → Int) : Nat → Nat → List Event
  | 0, _ => []
  | fuel + 1, mask =>
    if mask = 0 then []
    else
      let i := ctz mask
      let fastTrack := cur.mFastTracks i
      let evs :=
        match fastTrack.mVolumeProvider with
        | some _ =>
          let vlr := w32 (inp.volumeLR i)
          [Event.setParameter (names i) .VOLUME .VOLUME0 (.num (vlr % 65536)),
           Event.setParameter (names i) .VOLUME .VOLUME1 (.num (vlr / 65536))]
        | none => []
      evs ++ volumeLoopAux cur inp names fuel (mask - 2 ^ i)

/-- The volume-update loop over a 32-bit mask. -/
def volumeLoop (cur : FastMixerState) (inp : CycleInput) (names : Nat → Int)
    (mask : Nat) : List Event :=
  volumeLoopAux cur inp names 32 mask

/-- Source lines 296-319: when the command includes MIX and the engine
exists, update volumes, run `process()` and mark the buffer MIXED; otherwise
demote a still-MIXED buffer to UNDEFINED. -/
def mixPhase (s : WorkerState) (inp : CycleInput) (command : Command) :
    WorkerState × List Event :=
  if command.hasMix && s.mixer.isSome then
    let evs := volumeLoop s.current.st inp s.fastTrackNames (w32 s.current.st.mTrackMask)
    ({ s with mixBuffer := s.mixBuffer.map fun _ => BufContents.mixed
            , mixBufferState := .MIXED },
     evs ++ [Event.process])
  else if s.mixBufferState = .MIXED then
    ({ s with mixBufferState := .UNDEFINED }, [])
  else (s, [])

/-- Source lines 320-336: when the command includes WRITE and a sink and
buffer are bound, zero an UNDEFINED buffer, bracket the sink write with the
`mWriteSequence` increments, and account the result. -/
def writePhase (s : WorkerState) (inp : CycleInput) (command : Command)
    (frameCount : Nat) : WorkerState × List Event :=
  if command.hasWrite && s.outputSink.isSome && s.mixBuffer.isSome then
    let r :=
      if s.mixBufferState = .UNDEFINED then
        ({ s with mixBuffer := some .zeros, mixBufferState := .ZEROED },
         [Event.zeroBuffer])
      else (s, ([] : List Event))
    let s2 := updDump r.1 fun d => { d with mWriteSequence := w32 (d.mWriteSequence + 1) }
    let ev := Event.sinkWrite frameCount (r.1.mixBuffer.getD .uninit) inp.writeResult
    let s3 := updDump s2 fun d => { d with mWriteSequence := w32 (d.mWriteSequence + 1) }
    let s4 :=
      if 0 ≤ inp.writeResult then
        updDump s3 fun d =>
          { d with mFramesWritten := w32 (d.mFramesWritten + inp.writeResult.toNat) }
      else
        updDump s3 fun d => { d with mWriteErrors := w32 (d.mWriteErrors + 1) }
    (s4, r.2 ++ [Event.writeSeqIncr, ev, Event.writeSeqIncr])
  else (s, [])

/-- The mix step followed by the write step (source lines 296-336). -/
def workPhase (s : WorkerState) (inp : CycleInput) (command : Command)
    (frameCount : Nat) : WorkerState × List Event :=
  let r1 := mixPhase s inp command
  let r2 := writePhase r1.1 inp command frameCount
  (r2.1, r1.2 ++ r2.2)

/-- Source lines 341-394: read the monotonic clock, classify the cycle
interval against the period constants and choose the next sleep. -/
def timing (s : WorkerState) (clockOk : Bool) (newTs : Timespec) : WorkerState :=
  if clockOk then
    if s.oldTsValid then
      let sec0 := newTs.tv_sec - s.oldTs.tv_sec
      let nsec0 := newTs.tv_nsec - s.oldTs.tv_nsec
      let sec := if nsec0 < 0 then sec0 - 1 else sec0
      let nsec := if nsec0 < 0 then nsec0 + 1000000000 else nsec0
      let s1 :=
        if 0 < sec ∨ s.underrunNs < nsec then
          { (updDump s fun d => { d with mUnderruns := w32 (d.mUnderruns + 1) }) with
              sleepNs := -1, ignoreNextOverrun := true }
        else if nsec < s.overrunNs then
          let s2 :=
            if s.ignoreNextOverrun then { s with ignoreNextOverrun := false }
            else updDump s fun d => { d with mOverruns := w32 (d.mOverruns + 1) }
          { s2 with sleepNs := s.periodNs - s.overrunNs }
        else
          { s with sleepNs := -1, ignoreNextOverrun := false }
      { s1 with oldTs := newTs }
    else
      { s with oldTsValid := true, sleepNs := s.periodNs
             , ignoreNextOverrun := true, oldTs := newTs }
  else
    { s with oldTsValid := false, sleepNs := s.periodNs }

/-- The body of a working cycle (MIX, WRITE or MIX_WRITE): state-change
handling when `current != previous`, then the mix and write steps, then the
timing controller. -/
def workCycle (s : WorkerState) (inp : CycleInput) (command : Command) :
    WorkerState × List Event :=
  let frameCount := s.current.st.mFrameCount
  let r1 := if s.current.addr ≠ s.previous.addr then stateChange s else (s, [])
  let r2 := workPhase r1.1 inp command frameCount
  (timing r2.1 inp.clockOk inp.newTs, r1.2 ++ r2.2)

/-- One full iteration of the `for (;;)` loop of `threadLoop`. -/
def step (s : WorkerState) (inp : CycleInput) : StepResult :=
  let t0 := afterPoll s inp
  let command := stepCommand s inp
  let t := updDump t0 fun d => { d with mCommand := command }
  match command with
  | .INITIAL => .next { t with sleepNs := FAST_HOT_IDLE_NS } []
  | .HOT_IDLE => .next { t with sleepNs := FAST_HOT_IDLE_NS } []
  | .COLD_IDLE =>
    if t.current.st.mColdGen ≠ t.coldGen then
      .next { t with sleepNs := -1, coldGen := t.current.st.mColdGen }
        (Event.atomicDec (t.current.st.mColdFutexAddr.getD 0) ::
          (if inp.futexPre ≤ 0 then
            [Event.futexWait (t.current.st.mColdFutexAddr.getD 0) (inp.futexPre - 1)]
           else []))
    else .next { t with sleepNs := FAST_HOT_IDLE_NS } []
  | .EXIT =>
    .exited ((if t.mixer.isSome then [Event.deleteMixer] else []) ++
             (if t.mixBuffer.isSome then [Event.deleteMixBuffer] else []))
  | c =>
    .next (workCycle t inp c).1 (workCycle t inp c).2

/-! Concrete snapshots, worker states and cycle inputs used to instantiate
the claim theorems on explicit inputs. -/

/-- A 48 kHz stereo format. -/
def sinkFmt : NBAIO_Format := ⟨1, 48000, 2⟩

/-- A sink reporting `sinkFmt`. -/
def theSink : Sink := ⟨sinkFmt⟩

/-- A worker state with a 4 ms period (192 frames at 48 kHz), a valid
previous timestamp at 0, and the given overrun-suppression flag. -/
def timingWorker (ig : Bool) : WorkerState :=
  { initWorker with oldTsValid := true, periodNs := 4000000
                  , underrunNs := 7000000, overrunNs := 1000000
                  , ignoreNextOverrun := ig }

/-- A cycle input that polls nothing new. -/
def inDflt : CycleInput := ⟨none, 1, true, ⟨0, 0⟩, 0, fun _ => 0⟩

/-- Track table with slots 0 and 1 active (providers 100, 101). -/
def trksP : Nat → FastTrack :=
  fun i => if i ≤ 1 then ⟨some (100 + i), none, 1⟩ else ⟨none, none, 0⟩

/-- Track table with slots 1 and 2 active (providers 101, 102). -/
def trksC : Nat → FastTrack :=
  fun i => if i = 1 then ⟨some 101, none, 1⟩
           else if i = 2 then ⟨some 102, none, 1⟩
           else ⟨none, none, 0⟩

/-- Snapshot with track mask 0b0011 (slots 0 and 1). -/
def stP : FastMixerState :=
  { mCommand := .MIX, mFastTracks := trksP, mTrackMask := 3
  , mFastTracksGen := 1, mFrameCount := 4, mOutputSink := some theSink
  , mOutputSinkGen := 0, mColdFutexAddr := none, mColdGen := 0
  , mDumpState := none }

/-- Snapshot with track mask 0b0110 (slots 1 and 2), next table generation. -/
def stC : FastMixerState :=
  { stP with mFastTracks := trksC, mTrackMask := 6, mFastTracksGen := 2 }

/-- A worker that has fully applied `stP`: slot 0 holds engine handle 5 and
slot 1 handle 6, both at generation 1. -/
def wC2 : WorkerState :=
  { initWorker with
      previous := ⟨2, stP⟩, current := ⟨2, stP⟩
    , fastTrackNames := fun j => if j = 0 then 5 else if j = 1 then 6 else -1
    , generations := fun j => if j ≤ 1 then 1 else 0
    , outputSink := some theSink, outputSinkGen := 0
    , mixer := some ⟨4, 48000, 32, 0⟩, mixBuffer := some .uninit
    , format := sinkFmt, sampleRate := 48000, fastTracksGen := 1
    , periodNs := 83333, underrunNs := 145833, overrunNs := 20833 }

/-- A cycle that polls the snapshot `stC` (track mask 0b0110). -/
def inC2 : CycleInput := ⟨some ⟨3, stC⟩, 1, true, ⟨0, 0⟩, 0, fun _ => 0⟩

/-- A worker about to apply a snapshot with 192 frames per period on its
48 kHz sink, triggering reconfiguration (frame count changed from 0). -/
def wC5 : WorkerState :=
  { initWorker with
      current := ⟨2, { initialState with mCommand := .MIX_WRITE, mFrameCount := 192 }⟩
    , outputSink := some theSink, format := sinkFmt, sampleRate := 48000 }

/-- A published MIX snapshot at address 2. -/
def mixSnap : Snap := ⟨2, { initialState with mCommand := .MIX }⟩

/-- A published HOT_IDLE snapshot at address 3. -/
def hotSnap : Snap := ⟨3, { initialState with mCommand := .HOT_IDLE }⟩

/-- A worker with a bound sink and a mix buffer left MIXED by some earlier
cycle. -/
def writeWorker : WorkerState :=
  { initWorker with outputSink := some theSink
                  , mixBuffer := some .mixed, mixBufferState := .MIXED }

/-- A COLD_IDLE snapshot with cold generation 1 and futex word at 7. -/
def coldSnap : Snap :=
  ⟨2, { initialState with mCommand := .COLD_IDLE, mColdGen := 1
                        , mColdFutexAddr := some 7 }⟩

/-- A worker currently observing `coldSnap` whose cold generation is not yet
consumed. -/
def coldWorker : WorkerState :=
  { initWorker with previous := coldSnap, current := coldSnap }

/-- A cycle input whose futex word reads 0 before the decrement. -/
def inCold : CycleInput := { inDflt with futexPre := 0 }

/-! Helper lemmas. -/

/-- Updating the bound dump area rewrites exactly that area. -/
theorem updDump_get (s : WorkerState) (f : FastMixerDumpState → FastMixerDumpState) :
    (updDump s f).dumps s.dumpAddr = f (s.dumps s.dumpAddr) := by
  simp [updDump]

/-- C3: at the end of every working cycle with a valid previous timestamp
and a successful clock read, the measured interval d = new_ts - old_ts is
classified as follows: d > underrun_ns increments the underrun counter,
makes the next sleep a busy-wait and sets ignore_next_overrun; d < overrun_ns
increments the overrun counter unless suppressed (in which case the
suppression is cleared instead) and the next sleep is period_ns - overrun_ns;
otherwise the next sleep is a busy-wait and no counter changes.  The
hypotheses state that both timespecs are normalized, the interval is
nonnegative (monotonic clock) and the thresholds are ordered and below one
second, as holds for every configuration the reconfiguration code derives
from a sub-second period. -/
theorem fastMixer_C3 (s : WorkerState) (newTs : Timespec)
    (hvalid : s.oldTsValid = true)
    (hon1 : 0 ≤ s.oldTs.tv_nsec) (hon2 : s.oldTs.tv_nsec < 1000000000)
    (hnn1 : 0 ≤ newTs.tv_nsec) (hnn2 : newTs.tv_nsec < 1000000000)
    (hov : 0 ≤ s.overrunNs) (hou : s.overrunNs ≤ s.underrunNs)
    (hub : s.underrunNs < 1000000000)
    (hd : 0 ≤ (newTs.tv_sec - s.oldTs.tv_sec) * 1000000000 +
        (newTs.tv_nsec - s.oldTs.tv_nsec)) :
    ((newTs.tv_sec - s.oldTs.tv_sec) * 1000000000 +
        (newTs.tv_nsec - s.oldTs.tv_nsec) > s.underrunNs →
      ((timing s true newTs).dumps s.dumpAddr).mUnderruns =
          w32 ((s.dumps s.dumpAddr).mUnderruns + 1) ∧
      (timing s true newTs).sleepNs = -1 ∧
      (timing s true newTs).ignoreNextOverrun = true) ∧
    ((newTs.tv_sec - s.oldTs.tv_sec) * 1000000000 +
        (newTs.tv_nsec - s.oldTs.tv_nsec) < s.overrunNs →
      (s.ignoreNextOverrun = true →
        ((timing s true newTs).dumps s.dumpAddr).mOverruns =
            (s.dumps s.dumpAddr).mOverruns ∧
        (timing s true newTs).ignoreNextOverrun = false) ∧
      (s.ignoreNextOverrun = false →
        ((timing s true newTs).dumps s.dumpAddr).mOverruns =
            w32 ((s.dumps s.dumpAddr).mOverruns + 1)) ∧
      (timing s true newTs).sleepNs = s.periodNs - s.overrunNs) ∧
    (s.overrunNs ≤ (newTs.tv_sec - s.oldTs.tv_sec) * 1000000000 +
        (newTs.tv_nsec - s.oldTs.tv_nsec) →
      (newTs.tv_sec - s.oldTs.tv_sec) * 1000000000 +
        (newTs.tv_nsec - s.oldTs.tv_nsec) ≤ s.underrunNs →
      (timing s true newTs).sleepNs = -1 ∧
      ((timing s true newTs).dumps s.dumpAddr).mUnderruns =
          (s.dumps s.dumpAddr).mUnderruns ∧
      ((timing s true newTs).dumps s.dumpAddr).mOverruns =
          (s.dumps s.dumpAddr).mOverruns) := by
  refine ⟨fun hgt => ?_, fun hlt => ?_, fun hge hle => ?_⟩ <;>
  · unfold timing
    rw [hvalid]
    simp only [eq_self_iff_true, if_true]
    split_ifs <;> first | (exfalso; omega) | simp_all [updDump]

/-- C3 witness: an 8 ms interval against a 7 ms underrun threshold records an
underrun, busy-waits and sets the suppression flag. -/
theorem fastMixer_C3_witness :
    ((timing (timingWorker false) true ⟨0, 8000000⟩).dumps
        (timingWorker false).dumpAddr).mUnderruns =
      w32 (((timingWorker false).dumps (timingWorker false).dumpAddr).mUnderruns + 1) ∧
    (timing (timingWorker false) true ⟨0, 8000000⟩).sleepNs = -1 ∧
    (timing (timingWorker false) true ⟨0, 8000000⟩).ignoreNextOverrun = true :=
  (fastMixer_C3 (timingWorker false) ⟨0, 8000000⟩ rfl (by decide) (by decide)
    (by decide) (by decide) (by decide) (by decide) (by decide) (by decide)).1
    (by decide)

/-- C6 counterexample: an underrun cycle (8 ms), then a nominal cycle (4 ms),
then an overrun cycle (0.5 ms) against period 4 ms, underrun 7 ms, overrun
1 ms: the overrun IS counted (mOverruns = 1), although the claim asserts the
first overrun after an underrun is suppressed regardless of the intervening
cycle intervals.  The intervening nominal cycle clears the suppression flag
(source line 370). -/
theorem fastMixer_C6_counterexample :
    ((timing (timing (timing (timingWorker false) true ⟨0, 8000000⟩)
        true ⟨0, 12000000⟩) true ⟨0, 12500000⟩).dumps none).mUnderruns = 1 ∧
    ((timing (timing (timing (timingWorker false) true ⟨0, 8000000⟩)
        true ⟨0, 12000000⟩) true ⟨0, 12500000⟩).dumps none).mOverruns = 1 := by
  decide

/-- C6 amended: after an underrun the suppression flag is set, and the NEXT
measured cycle consumes it: a suppressed overrun is not counted and clears
the flag, but a nominal measured cycle also clears the flag, so an overrun
separated from the underrun by a nominal cycle is counted.  Suppression thus
holds only until the first non-underrun measured cycle, not regardless of
the intervening intervals. -/
theorem fastMixer_C6 (s : WorkerState) (newTs : Timespec)
    (hvalid : s.oldTsValid = true)
    (hon1 : 0 ≤ s.oldTs.tv_nsec) (hon2 : s.oldTs.tv_nsec < 1000000000)
    (hnn1 : 0 ≤ newTs.tv_nsec) (hnn2 : newTs.tv_nsec < 1000000000)
    (hov : 0 ≤ s.overrunNs) (hou : s.overrunNs ≤ s.underrunNs)
    (hub : s.underrunNs < 1000000000)
    (hd : 0 ≤ (newTs.tv_sec - s.oldTs.tv_sec) * 1000000000 +
        (newTs.tv_nsec - s.oldTs.tv_nsec)) :
    ((newTs.tv_sec - s.oldTs.tv_sec) * 1000000000 +
        (newTs.tv_nsec - s.oldTs.tv_nsec) > s.underrunNs →
      (timing s true newTs).ignoreNextOverrun = true) ∧
    ((newTs.tv_sec - s.oldTs.tv_sec) * 1000000000 +
        (newTs.tv_nsec - s.oldTs.tv_nsec) < s.overrunNs →
      s.ignoreNextOverrun = true →
      ((timing s true newTs).dumps s.dumpAddr).mOverruns =
          (s.dumps s.dumpAddr).mOverruns ∧
      (timing s true newTs).ignoreNextOverrun = false) ∧
    ((newTs.tv_sec - s.oldTs.tv_sec) * 1000000000 +
        (newTs.tv_nsec - s.oldTs.tv_nsec) < s.overrunNs →
      s.ignoreNextOverrun = false →
      ((timing s true newTs).dumps s.dumpAddr).mOverruns =
          w32 ((s.dumps s.dumpAddr).mOverruns + 1)) ∧
    (s.overrunNs ≤ (newTs.tv_sec - s.oldTs.tv_sec) * 1000000000 +
        (newTs.tv_nsec - s.oldTs.tv_nsec) →
      (newTs.tv_sec - s.oldTs.tv_sec) * 1000000000 +
        (newTs.tv_nsec - s.oldTs.tv_nsec) ≤ s.underrunNs →
      (timing s true newTs).ignoreNextOverrun = false) := by
  refine ⟨fun hgt => ?_, fun hlt hig => ?_, fun hlt hig => ?_, fun hge hle => ?_⟩ <;>
  · unfold timing
    rw [hvalid]
    simp only [eq_self_iff_true, if_true]
    split_ifs <;> first | (exfalso; omega) | simp_all [updDump]

/-- C6 amended witness: a nominal 4 ms cycle clears the suppression flag. -/
theorem fastMixer_C6_witness :
    (timing (timingWorker true) true ⟨0, 4000000⟩).ignoreNextOverrun = false :=
  (fastMixer_C6 (timingWorker true) ⟨0, 4000000⟩ rfl (by decide) (by decide)
    (by decide) (by decide) (by decide) (by decide) (by decide) (by decide)).2.2.2
    (by decide) (by decide)

/-- C4: on an observed state change (`next != current`), the previous
reference is updated per the transition kind: non-idle to non-idle pins
`previous` to the old current; non-idle to idle copies the old current by
value into the worker-local `preIdle`, points `previous` at that copy (the
snapshot at the worker-local address `preIdleAddr`), invalidates the old
timestamp and sets the overrun suppression; idle to idle and idle to
non-idle leave `previous` (and the copy, the timestamp flag and the
suppression flag) untouched. -/
theorem fastMixer_C4 (s : WorkerState) (next : Snap)
    (h : next.addr ≠ s.current.addr) :
    (s.current.st.mCommand.isIdle = false → next.st.mCommand.isIdle = false →
      (transitionPhase s next).previous = s.current ∧
      (transitionPhase s next).current = next ∧
      (transitionPhase s next).preIdle = s.preIdle ∧
      (transitionPhase s next).oldTsValid = s.oldTsValid ∧
      (transitionPhase s next).ignoreNextOverrun = s.ignoreNextOverrun) ∧
    (s.current.st.mCommand.isIdle = false → next.st.mCommand.isIdle = true →
      (transitionPhase s next).preIdle = s.current.st ∧
      (transitionPhase s next).previous = ⟨preIdleAddr, s.current.st⟩ ∧
      (transitionPhase s next).current = next ∧
      (transitionPhase s next).oldTsValid = false ∧
      (transitionPhase s next).ignoreNextOverrun = true) ∧
    (s.current.st.mCommand.isIdle = true →
      (transitionPhase s next).previous = s.previous ∧
      (transitionPhase s next).current = next ∧
      (transitionPhase s next).preIdle = s.preIdle ∧
      (transitionPhase s next).oldTsValid = s.oldTsValid ∧
      (transitionPhase s next).ignoreNextOverrun = s.ignoreNextOverrun) := by
  refine ⟨fun h1 h2 => ?_, fun h1 h2 => ?_, fun h1 => ?_⟩
  · unfold transitionPhase
    rw [if_pos h]
    simp [h1, h2]
  · unfold transitionPhase
    rw [if_pos h]
    simp [h1, h2]
  · unfold transitionPhase
    rw [if_pos h]
    simp [h1]

/-- C4 witness: the INITIAL-to-MIX transition (both non-idle) pins
`previous` to the old current and advances `current` to the new snapshot. -/
theorem fastMixer_C4_witness :
    (transitionPhase initWorker mixSnap).previous = initWorker.current ∧
    (transitionPhase initWorker mixSnap).current = mixSnap ∧
    (transitionPhase initWorker mixSnap).preIdle = initWorker.preIdle ∧
    (transitionPhase initWorker mixSnap).oldTsValid = initWorker.oldTsValid ∧
    (transitionPhase initWorker mixSnap).ignoreNextOverrun =
      initWorker.ignoreNextOverrun :=
  (fastMixer_C4 initWorker mixSnap (by decide)).1 rfl rfl

/-- C8: every attempted sink write is bracketed by exactly one
`mWriteSequence` increment immediately before and one immediately after the
write (so the sequence grows by exactly 2 modulo 2^32 per attempted write
and stays even at cycle boundaries), a nonnegative result is accumulated
into `mFramesWritten`, a negative result increments `mWriteErrors`, and the
write is never retried within the cycle (exactly one write event). -/
theorem fastMixer_C8 (s : WorkerState) (inp : CycleInput) (c : Command) (fc : Nat)
    (hw : c.hasWrite = true) (hsink : s.outputSink.isSome = true)
    (hbuf : s.mixBuffer.isSome = true) :
    (writePhase s inp c fc).2.countP Event.isWriteEv = 1 ∧
    (writePhase s inp c fc).2 =
      (if s.mixBufferState = .UNDEFINED then [Event.zeroBuffer] else []) ++
      [Event.writeSeqIncr,
       Event.sinkWrite fc
         ((if s.mixBufferState = .UNDEFINED then some BufContents.zeros
           else s.mixBuffer).getD .uninit) inp.writeResult,
       Event.writeSeqIncr] ∧
    ((writePhase s inp c fc).1.dumps s.dumpAddr).mWriteSequence =
      w32 ((s.dumps s.dumpAddr).mWriteSequence + 2) ∧
    (Even ((s.dumps s.dumpAddr).mWriteSequence) →
      Even (((writePhase s inp c fc).1.dumps s.dumpAddr).mWriteSequence)) ∧
    (0 ≤ inp.writeResult →
      ((writePhase s inp c fc).1.dumps s.dumpAddr).mFramesWritten =
        w32 ((s.dumps s.dumpAddr).mFramesWritten + inp.writeResult.toNat) ∧
      ((writePhase s inp c fc).1.dumps s.dumpAddr).mWriteErrors =
        (s.dumps s.dumpAddr).mWriteErrors) ∧
    (inp.writeResult < 0 →
      ((writePhase s inp c fc).1.dumps s.dumpAddr).mWriteErrors =
        w32 ((s.dumps s.dumpAddr).mWriteErrors + 1) ∧
      ((writePhase s inp c fc).1.dumps s.dumpAddr).mFramesWritten =
        (s.dumps s.dumpAddr).mFramesWritten) := by
  have hg : (c.hasWrite && s.outputSink.isSome && s.mixBuffer.isSome) = true := by
    rw [hw, hsink, hbuf]
    rfl
  simp only [writePhase, hg, eq_self_iff_true, if_true]
  split_ifs with h1 h2 h2 <;>
    refine ⟨?_, ?_, ?_, fun he => ?_, fun hr => ⟨?_, ?_⟩, fun hr => ⟨?_, ?_⟩⟩ <;>
      first
        | (exfalso; omega)
        | (simp [List.countP_cons, Event.isWriteEv]; done)
        | (simp only [updDump, w32]; simp; done)
        | (simp only [updDump, w32]; simp; omega)
        | (simp only [updDump, w32, Nat.even_iff] at he ⊢
           simp at he ⊢
           omega)

/-- C8 witness: a WRITE cycle on a worker with a bound sink and a MIXED
buffer performs exactly one write, bracketed by the two sequence
increments. -/
theorem fastMixer_C8_witness :
    (writePhase writeWorker inDflt .WRITE 4).2.countP Event.isWriteEv = 1 ∧
    (writePhase writeWorker inDflt .WRITE 4).2 =
      (if writeWorker.mixBufferState = .UNDEFINED then [Event.zeroBuffer] else []) ++
      [Event.writeSeqIncr,
       Event.sinkWrite 4
         ((if writeWorker.mixBufferState = .UNDEFINED then some BufContents.zeros
           else writeWorker.mixBuffer).getD .uninit) inDflt.writeResult,
       Event.writeSeqIncr] ∧
    ((writePhase writeWorker inDflt .WRITE 4).1.dumps writeWorker.dumpAddr).mWriteSequence =
      w32 ((writeWorker.dumps writeWorker.dumpAddr).mWriteSequence + 2) ∧
    (Even ((writeWorker.dumps writeWorker.dumpAddr).mWriteSequence) →
      Even (((writePhase writeWorker inDflt .WRITE 4).1.dumps
        writeWorker.dumpAddr).mWriteSequence)) ∧
    (0 ≤ inDflt.writeResult →
      ((writePhase writeWorker inDflt .WRITE 4).1.dumps
          writeWorker.dumpAddr).mFramesWritten =
        w32 ((writeWorker.dumps writeWorker.dumpAddr).mFramesWritten +
          inDflt.writeResult.toNat) ∧
      ((writePhase writeWorker inDflt .WRITE 4).1.dumps
          writeWorker.dumpAddr).mWriteErrors =
        (writeWorker.dumps writeWorker.dumpAddr).mWriteErrors) ∧
    (inDflt.writeResult < 0 →
      ((writePhase writeWorker inDflt .WRITE 4).1.dumps
          writeWorker.dumpAddr).mWriteErrors =
        w32 ((writeWorker.dumps writeWorker.dumpAddr).mWriteErrors + 1) ∧
      ((writePhase writeWorker inDflt .WRITE 4).1.dumps
          writeWorker.dumpAddr).mFramesWritten =
        (writeWorker.dumps writeWorker.dumpAddr).mFramesWritten) :=
  fastMixer_C8 writeWorker inDflt .WRITE 4 rfl rfl rfl

/-- C7: whenever a WRITE executes without a MIX having executed in the same
cycle, the buffer reaching the sink is zero-filled and `mixBufferState` is
ZEROED at the write; a buffer left MIXED by an earlier cycle is demoted to
UNDEFINED when the command lacks MIX and is therefore re-zeroed before the
write (a `zeroBuffer` event precedes the write exactly when the buffer was
not already ZEROED). -/
theorem fastMixer_C7 (s : WorkerState) (inp : CycleInput) (c : Command) (fc : Nat)
    (hw : c.hasWrite = true) (hsink : s.outputSink.isSome = true)
    (hbuf : s.mixBuffer.isSome = true)
    (hnomix : (c.hasMix && s.mixer.isSome) = false)
    (hz : s.mixBufferState = .ZEROED → s.mixBuffer = some .zeros) :
    (workPhase s inp c fc).2 =
      (if s.mixBufferState = .ZEROED then [] else [Event.zeroBuffer]) ++
      [Event.writeSeqIncr, Event.sinkWrite fc .zeros inp.writeResult,
       Event.writeSeqIncr] ∧
    (workPhase s inp c fc).1.mixBufferState = .ZEROED ∧
    (s.mixBufferState = .MIXED →
      (mixPhase s inp c).1.mixBufferState = .UNDEFINED ∧
      (mixPhase s inp c).2 = []) := by
  have hg : (c.hasWrite && s.outputSink.isSome && s.mixBuffer.isSome) = true := by
    rw [hw, hsink, hbuf]
    rfl
  cases hmb : s.mixBufferState with
  | UNDEFINED =>
    simp [workPhase, mixPhase, writePhase, hnomix, hg, hmb, hw, hsink, hbuf]
    try (split_ifs <;> rfl)
  | MIXED =>
    simp [workPhase, mixPhase, writePhase, hnomix, hg, hmb, hw, hsink, hbuf]
    try (split_ifs <;> rfl)
  | ZEROED =>
    simp [workPhase, mixPhase, writePhase, hnomix, hg, hmb, hw, hsink, hbuf, hz hmb]
    try (split_ifs <;> simp [updDump, hmb])

/-- C7 witness: a WRITE command on a worker whose buffer was left MIXED
demotes the buffer, zeroes it, and hands zeros to the sink. -/
theorem fastMixer_C7_witness :
    (workPhase writeWorker inDflt .WRITE 4).2 =
      (if writeWorker.mixBufferState = .ZEROED then [] else [Event.zeroBuffer]) ++
      [Event.writeSeqIncr, Event.sinkWrite 4 .zeros inDflt.writeResult,
       Event.writeSeqIncr] ∧
    (workPhase writeWorker inDflt .WRITE 4).1.mixBufferState = .ZEROED ∧
    (writeWorker.mixBufferState = .MIXED →
      (mixPhase writeWorker inDflt .WRITE).1.mixBufferState = .UNDEFINED ∧
      (mixPhase writeWorker inDflt .WRITE).2 = []) :=
  fastMixer_C7 writeWorker inDflt .WRITE 4 rfl rfl rfl rfl (by decide)

/-! Preservation lemmas about the phases of the cycle. -/

/-- `updDump` only rewrites the dump map. -/
theorem updDump_current (s : WorkerState) (f : FastMixerDumpState → FastMixerDumpState) :
    (updDump s f).current = s.current := rfl

/-- `updDump` only rewrites the dump map. -/
theorem updDump_coldGen (s : WorkerState) (f : FastMixerDumpState → FastMixerDumpState) :
    (updDump s f).coldGen = s.coldGen := rfl

/-- `updDump` only rewrites the dump map. -/
theorem updDump_mixer (s : WorkerState) (f : FastMixerDumpState → FastMixerDumpState) :
    (updDump s f).mixer = s.mixer := rfl

/-- `updDump` only rewrites the dump map. -/
theorem updDump_mixBuffer (s : WorkerState) (f : FastMixerDumpState → FastMixerDumpState) :
    (updDump s f).mixBuffer = s.mixBuffer := rfl

/-- The state-change handling never touches the engine, the mix buffer, the
applied generations or the dump contents; it only rebinds references and the
idle-entry bookkeeping. -/
theorem transitionPhase_keep (s : WorkerState) (next : Snap) :
    (transitionPhase s next).mixer = s.mixer ∧
    (transitionPhase s next).mixBuffer = s.mixBuffer ∧
    (transitionPhase s next).coldGen = s.coldGen ∧
    (transitionPhase s next).generations = s.generations ∧
    (transitionPhase s next).fastTracksGen = s.fastTracksGen ∧
    (transitionPhase s next).outputSinkGen = s.outputSinkGen ∧
    (transitionPhase s next).outputSink = s.outputSink ∧
    (transitionPhase s next).sampleRate = s.sampleRate ∧
    (transitionPhase s next).format = s.format ∧
    (transitionPhase s next).dumps = s.dumps ∧
    (transitionPhase s next).fastTrackNames = s.fastTrackNames ∧
    (transitionPhase s next).mixBufferState = s.mixBufferState := by
  unfold transitionPhase
  by_cases h1 : next.addr ≠ s.current.addr
  · rw [if_pos h1]
    by_cases h2 : s.current.st.mCommand.isIdle
    · simp [h2]
    · by_cases h3 : next.st.mCommand.isIdle <;> simp [h2, h3]
  · rw [if_neg h1]
    simp

/-- After the poll and state-change handling, `current` is the polled
snapshot (or the unchanged current one when nothing new was polled). -/
theorem afterPoll_current (s : WorkerState) (inp : CycleInput) :
    (afterPoll s inp).current = pollNext s inp := by
  unfold afterPoll
  cases hp : inp.poll with
  | none =>
    have hpn : pollNext s inp = s.current := by unfold pollNext; rw [hp]
    rw [hpn]
    unfold transitionPhase
    rw [if_neg (by simp)]
  | some sn =>
    have hpn : pollNext s inp =
        if sn.addr = s.current.addr then s.current else sn := by
      unfold pollNext; rw [hp]
    rw [hpn]
    by_cases h2 : sn.addr = s.current.addr
    · rw [if_pos h2]
      unfold transitionPhase
      rw [if_neg (by simp)]
    · rw [if_neg h2]
      unfold transitionPhase
      rw [if_pos (by simp [h2])]

/-- The poll and state-change handling preserve the worker's applied cold
generation. -/
theorem afterPoll_coldGen (s : WorkerState) (inp : CycleInput) :
    (afterPoll s inp).coldGen = s.coldGen :=
  (transitionPhase_keep _ _).2.2.1

/-- The poll and state-change handling preserve the engine reference. -/
theorem afterPoll_mixer (s : WorkerState) (inp : CycleInput) :
    (afterPoll s inp).mixer = s.mixer :=
  (transitionPhase_keep _ _).1

/-- The poll and state-change handling preserve the mix buffer. -/
theorem afterPoll_mixBuffer (s : WorkerState) (inp : CycleInput) :
    (afterPoll s inp).mixBuffer = s.mixBuffer :=
  (transitionPhase_keep _ _).2.1

/-- When the poll returns nothing new, the poll and state-change handling
only reset the default sleep. -/
theorem afterPoll_poll_none (s : WorkerState) (inp : CycleInput)
    (hpoll : inp.poll = none) :
    afterPoll s inp = { s with sleepNs := FAST_DEFAULT_NS } := by
  unfold afterPoll pollNext
  rw [hpoll]
  unfold transitionPhase
  rw [if_neg (by simp)]

/-- C1: for every cold-idle epoch (each newly observed value of `cold_gen`)
the worker performs exactly one atomic decrement on the futex word and at
most one futex wait, the wait occurring iff the pre-decrement value is at
most 0; a COLD_IDLE cycle observing an already-consumed `cold_gen` performs
no atomic operation and no futex operation. -/
theorem fastMixer_C1 (s : WorkerState) (inp : CycleInput)
    (hc : stepCommand s inp = .COLD_IDLE) :
    ((pollNext s inp).st.mColdGen ≠ s.coldGen →
      (step s inp).trace.countP Event.isAtomicDecEv = 1 ∧
      (step s inp).trace.countP Event.isFutexWaitEv =
        (if inp.futexPre ≤ 0 then 1 else 0) ∧
      (step s inp).trace =
        Event.atomicDec ((pollNext s inp).st.mColdFutexAddr.getD 0) ::
          (if inp.futexPre ≤ 0 then
            [Event.futexWait ((pollNext s inp).st.mColdFutexAddr.getD 0)
              (inp.futexPre - 1)]
           else []) ∧
      ((step s inp).toNext.map fun s2 => s2.coldGen) =
        some (pollNext s inp).st.mColdGen ∧
      ((step s inp).toNext.map fun s2 => s2.sleepNs) = some (-1)) ∧
    ((pollNext s inp).st.mColdGen = s.coldGen →
      (step s inp).trace = [] ∧
      ((step s inp).toNext.map fun s2 => s2.coldGen) = some s.coldGen ∧
      ((step s inp).toNext.map fun s2 => s2.sleepNs) = some FAST_HOT_IDLE_NS) := by
  refine ⟨fun hne => ?_, fun heq => ?_⟩
  · simp only [step, hc, updDump_current, updDump_coldGen, afterPoll_current,
      afterPoll_coldGen]
    rw [if_pos hne]
    refine ⟨?_, ?_, rfl, rfl, rfl⟩ <;>
      split_ifs <;>
        simp [List.countP_cons, Event.isAtomicDecEv, Event.isFutexWaitEv,
          StepResult.trace]
  · simp only [step, hc, updDump_current, updDump_coldGen, afterPoll_current,
      afterPoll_coldGen]
    rw [if_neg (by simp [heq])]
    exact ⟨rfl, by simp [StepResult.toNext, afterPoll_coldGen], rfl⟩

/-- C1 witness: observing `coldSnap` (cold generation 1, not yet consumed)
with a futex word reading 0 performs one atomic decrement followed by one
futex wait, and marks generation 1 consumed. -/
theorem fastMixer_C1_witness :
    (step coldWorker inCold).trace.countP Event.isAtomicDecEv = 1 ∧
    (step coldWorker inCold).trace.countP Event.isFutexWaitEv =
      (if inCold.futexPre ≤ 0 then 1 else 0) ∧
    (step coldWorker inCold).trace =
      Event.atomicDec ((pollNext coldWorker inCold).st.mColdFutexAddr.getD 0) ::
        (if inCold.futexPre ≤ 0 then
          [Event.futexWait ((pollNext coldWorker inCold).st.mColdFutexAddr.getD 0)
            (inCold.futexPre - 1)]
         else []) ∧
    ((step coldWorker inCold).toNext.map fun s2 => s2.coldGen) =
      some (pollNext coldWorker inCold).st.mColdGen ∧
    ((step coldWorker inCold).toNext.map fun s2 => s2.sleepNs) = some (-1) :=
  (fastMixer_C1 coldWorker inCold rfl).1 (by decide)

/-- The mix step never touches the snapshot references, the dump binding,
the applied generations or the engine reference. -/
theorem mixPhase_keep (s : WorkerState) (inp : CycleInput) (c : Command) :
    (mixPhase s inp c).1.current = s.current ∧
    (mixPhase s inp c).1.previous = s.previous ∧
    (mixPhase s inp c).1.dumpAddr = s.dumpAddr ∧
    (mixPhase s inp c).1.generations = s.generations ∧
    (mixPhase s inp c).1.fastTracksGen = s.fastTracksGen ∧
    (mixPhase s inp c).1.outputSinkGen = s.outputSinkGen ∧
    (mixPhase s inp c).1.coldGen = s.coldGen ∧
    (mixPhase s inp c).1.mixer = s.mixer := by
  unfold mixPhase
  by_cases h : (c.hasMix && s.mixer.isSome) = true
  · rw [if_pos h]
    simp
  · rw [if_neg h]
    by_cases h2 : s.mixBufferState = .MIXED
    · rw [if_pos h2]
      simp
    · rw [if_neg h2]
      simp

/-- The write step never touches the snapshot references, the dump binding,
the applied generations or the engine reference. -/
theorem writePhase_keep (s : WorkerState) (inp : CycleInput) (c : Command)
    (fc : Nat) :
    (writePhase s inp c fc).1.current = s.current ∧
    (writePhase s inp c fc).1.previous = s.previous ∧
    (writePhase s inp c fc).1.dumpAddr = s.dumpAddr ∧
    (writePhase s inp c fc).1.generations = s.generations ∧
    (writePhase s inp c fc).1.fastTracksGen = s.fastTracksGen ∧
    (writePhase s inp c fc).1.outputSinkGen = s.outputSinkGen ∧
    (writePhase s inp c fc).1.coldGen = s.coldGen ∧
    (writePhase s inp c fc).1.mixer = s.mixer := by
  unfold writePhase
  by_cases h : (c.hasWrite && s.outputSink.isSome && s.mixBuffer.isSome) = true
  · rw [if_pos h]
    simp only [updDump]
    split_ifs <;> simp
  · rw [if_neg h]
    simp

/-- The timing controller never touches the snapshot references, the dump
binding, the applied generations, the engine or the mix buffer. -/
theorem timing_keep (s : WorkerState) (ck : Bool) (ts : Timespec) :
    (timing s ck ts).current = s.current ∧
    (timing s ck ts).previous = s.previous ∧
    (timing s ck ts).dumpAddr = s.dumpAddr ∧
    (timing s ck ts).generations = s.generations ∧
    (timing s ck ts).fastTracksGen = s.fastTracksGen ∧
    (timing s ck ts).outputSinkGen = s.outputSinkGen ∧
    (timing s ck ts).coldGen = s.coldGen ∧
    (timing s ck ts).mixer = s.mixer ∧
    (timing s ck ts).mixBuffer = s.mixBuffer := by
  simp only [timing]
  split_ifs <;> simp [updDump]

/-- The mix-then-write work phase preserves the same references. -/
theorem workPhase_keep (s : WorkerState) (inp : CycleInput) (c : Command)
    (fc : Nat) :
    (workPhase s inp c fc).1.current = s.current ∧
    (workPhase s inp c fc).1.previous = s.previous ∧
    (workPhase s inp c fc).1.dumpAddr = s.dumpAddr ∧
    (workPhase s inp c fc).1.generations = s.generations ∧
    (workPhase s inp c fc).1.fastTracksGen = s.fastTracksGen ∧
    (workPhase s inp c fc).1.outputSinkGen = s.outputSinkGen ∧
    (workPhase s inp c fc).1.coldGen = s.coldGen ∧
    (workPhase s inp c fc).1.mixer = s.mixer := by
  unfold workPhase
  have hm := mixPhase_keep s inp c
  have hw := writePhase_keep (mixPhase s inp c).1 inp c fc
  exact ⟨hw.1.trans hm.1, hw.2.1.trans hm.2.1, hw.2.2.1.trans hm.2.2.1,
    hw.2.2.2.1.trans hm.2.2.2.1, hw.2.2.2.2.1.trans hm.2.2.2.2.1,
    hw.2.2.2.2.2.1.trans hm.2.2.2.2.2.1,
    hw.2.2.2.2.2.2.1.trans hm.2.2.2.2.2.2.1,
    hw.2.2.2.2.2.2.2.trans hm.2.2.2.2.2.2.2⟩

/-- A working cycle whose current and previous references agree (no state
change pending) preserves the references and applied generations. -/
theorem workCycle_keep (s : WorkerState) (inp : CycleInput) (c : Command)
    (hpa : s.current.addr = s.previous.addr) :
    (workCycle s inp c).1.current = s.current ∧
    (workCycle s inp c).1.previous = s.previous ∧
    (workCycle s inp c).1.dumpAddr = s.dumpAddr ∧
    (workCycle s inp c).1.generations = s.generations ∧
    (workCycle s inp c).1.fastTracksGen = s.fastTracksGen ∧
    (workCycle s inp c).1.outputSinkGen = s.outputSinkGen ∧
    (workCycle s inp c).1.coldGen = s.coldGen ∧
    (workCycle s inp c).2 = (workPhase s inp c s.current.st.mFrameCount).2 := by
  unfold workCycle
  rw [if_neg (by simp [hpa])]
  have ht := timing_keep (workPhase s inp c s.current.st.mFrameCount).1
    inp.clockOk inp.newTs
  have hw := workPhase_keep s inp c s.current.st.mFrameCount
  exact ⟨ht.1.trans hw.1, ht.2.1.trans hw.2.1, ht.2.2.1.trans hw.2.2.1,
    ht.2.2.2.1.trans hw.2.2.2.1, ht.2.2.2.2.1.trans hw.2.2.2.2.1,
    ht.2.2.2.2.2.1.trans hw.2.2.2.2.2.1,
    ht.2.2.2.2.2.2.1.trans hw.2.2.2.2.2.2.1, by simp⟩

/-- The removed-tracks loop only touches track handles and generations. -/
theorem removedLoopAux_fields (cur : FastMixerState) (fuel : Nat) :
    ∀ (mask : Nat) (s : WorkerState),
      (removedLoopAux cur fuel mask s).1.periodNs = s.periodNs ∧
      (removedLoopAux cur fuel mask s).1.underrunNs = s.underrunNs ∧
      (removedLoopAux cur fuel mask s).1.overrunNs = s.overrunNs ∧
      (removedLoopAux cur fuel mask s).1.current = s.current ∧
      (removedLoopAux cur fuel mask s).1.mixer = s.mixer ∧
      (removedLoopAux cur fuel mask s).1.mixBuffer = s.mixBuffer := by
  induction fuel with
  | zero => exact fun mask s => ⟨rfl, rfl, rfl, rfl, rfl, rfl⟩
  | succ n ih =>
    intro mask s
    by_cases h : mask = 0
    · simp [removedLoopAux, h]
    · cases hm : s.mixer <;>
        simp only [removedLoopAux, if_neg h, hm] <;>
        exact ih _ _

/-- The added-tracks loop only touches the engine, track handles and
generations. -/
theorem addedLoopAux_fields (cur : FastMixerState) (fuel : Nat) :
    ∀ (mask : Nat) (s : WorkerState),
      (addedLoopAux cur fuel mask s).1.periodNs = s.periodNs ∧
      (addedLoopAux cur fuel mask s).1.underrunNs = s.underrunNs ∧
      (addedLoopAux cur fuel mask s).1.overrunNs = s.overrunNs ∧
      (addedLoopAux cur fuel mask s).1.current = s.current ∧
      (addedLoopAux cur fuel mask s).1.mixBuffer = s.mixBuffer := by
  induction fuel with
  | zero => exact fun mask s => ⟨rfl, rfl, rfl, rfl, rfl⟩
  | succ n ih =>
    intro mask s
    by_cases h : mask = 0
    · simp [addedLoopAux, h]
    · cases hm : s.mixer <;>
        simp only [addedLoopAux, if_neg h, hm] <;>
        exact ih _ _

/-- The modified-tracks loop only touches generations (and emits engine
parameter events). -/
theorem modifiedLoopAux_fields (cur : FastMixerState) (fuel : Nat) :
    ∀ (mask : Nat) (s : WorkerState),
      (modifiedLoopAux cur fuel mask s).1.periodNs = s.periodNs ∧
      (modifiedLoopAux cur fuel mask s).1.underrunNs = s.underrunNs ∧
      (modifiedLoopAux cur fuel mask s).1.overrunNs = s.overrunNs ∧
      (modifiedLoopAux cur fuel mask s).1.current = s.current ∧
      (modifiedLoopAux cur fuel mask s).1.mixer = s.mixer ∧
      (modifiedLoopAux cur fuel mask s).1.mixBuffer = s.mixBuffer := by
  induction fuel with
  | zero => exact fun mask s => ⟨rfl, rfl, rfl, rfl, rfl, rfl⟩
  | succ n ih =>
    intro mask s
    by_cases h : mask = 0
    · simp [modifiedLoopAux, h]
    · simp only [modifiedLoopAux, if_neg h]
      split_ifs <;> exact ih _ _

/-- Without an engine the removed-tracks loop emits no events. -/
theorem removedLoopAux_none (cur : FastMixerState) (fuel : Nat) :
    ∀ (mask : Nat) (s : WorkerState), s.mixer = none →
      (removedLoopAux cur fuel mask s).2 = [] := by
  induction fuel with
  | zero => exact fun mask s _ => rfl
  | succ n ih =>
    intro mask s hm
    by_cases h : mask = 0
    · simp [removedLoopAux, h]
    · simp only [removedLoopAux, if_neg h, hm, List.nil_append]
      exact ih _ _ rfl

/-- Without an engine the added-tracks loop emits no events and allocates no
engine. -/
theorem addedLoopAux_none (cur : FastMixerState) (fuel : Nat) :
    ∀ (mask : Nat) (s : WorkerState), s.mixer = none →
      (addedLoopAux cur fuel mask s).1.mixer = none ∧
      (addedLoopAux cur fuel mask s).2 = [] := by
  induction fuel with
  | zero => exact fun mask s hm => ⟨hm, rfl⟩
  | succ n ih =>
    intro mask s hm
    by_cases h : mask = 0
    · simp [addedLoopAux, h, hm]
    · simp only [addedLoopAux, if_neg h, hm, List.nil_append]
      exact ih _ _ rfl

/-- Without an engine the modified-tracks loop emits no events. -/
theorem modifiedLoopAux_none (cur : FastMixerState) (fuel : Nat) :
    ∀ (mask : Nat) (s : WorkerState), s.mixer = none →
      (modifiedLoopAux cur fuel mask s).2 = [] := by
  induction fuel with
  | zero => exact fun mask s _ => rfl
  | succ n ih =>
    intro mask s hm
    by_cases h : mask = 0
    · simp [modifiedLoopAux, h]
    · simp only [modifiedLoopAux, if_neg h, hm, List.nil_append]
      split_ifs with hg
      · exact ih _ _ rfl
      · exact ih _ _ hm

/-- The removed-tracks loop emits only handle-release events. -/
theorem removedLoopAux_kinds (cur : FastMixerState) (fuel : Nat) :
    ∀ (mask : Nat) (s : WorkerState),
      (removedLoopAux cur fuel mask s).2.all Event.isDeleteTrackEv = true := by
  induction fuel with
  | zero => exact fun mask s => rfl
  | succ n ih =>
    intro mask s
    by_cases h : mask = 0
    · simp [removedLoopAux, h]
    · cases hm : s.mixer <;>
        simp only [removedLoopAux, if_neg h, hm, List.all_append,
          Bool.and_eq_true] <;>
        exact ⟨rfl, ih _ _⟩

/-- The added-tracks loop releases no handle. -/
theorem addedLoopAux_kinds (cur : FastMixerState) (fuel : Nat) :
    ∀ (mask : Nat) (s : WorkerState),
      (addedLoopAux cur fuel mask s).2.all
        (fun e => !e.isDeleteTrackEv) = true := by
  induction fuel with
  | zero => exact fun mask s => rfl
  | succ n ih =>
    intro mask s
    by_cases h : mask = 0
    · simp [addedLoopAux, h]
    · cases hm : s.mixer <;>
        simp only [addedLoopAux, if_neg h, hm, List.all_append,
          Bool.and_eq_true] <;>
        exact ⟨rfl, ih _ _⟩

/-- The modified-tracks loop neither releases nor allocates handles. -/
theorem modifiedLoopAux_kinds (cur : FastMixerState) (fuel : Nat) :
    ∀ (mask : Nat) (s : WorkerState),
      (modifiedLoopAux cur fuel mask s).2.all
        (fun e => !e.isDeleteTrackEv && !e.isGetTrackEv) = true := by
  induction fuel with
  | zero => exact fun mask s => rfl
  | succ n ih =>
    intro mask s
    by_cases h : mask = 0
    · simp [modifiedLoopAux, h]
    · simp only [modifiedLoopAux, if_neg h]
      split_ifs with hg
      · cases hm : s.mixer
        · simp only [hm, List.all_append, Bool.and_eq_true]
          exact ⟨rfl, ih _ _⟩
        · cases hv : (cur.mFastTracks (ctz mask)).mVolumeProvider
          · simp only [hm, hv, List.all_append, Bool.and_eq_true]
            exact ⟨⟨rfl, rfl⟩, ih _ _⟩
          · simp only [hm, hv, List.all_append, Bool.and_eq_true]
            exact ⟨⟨rfl, rfl⟩, ih _ _⟩
      · simp only [List.all_append, Bool.and_eq_true]
        exact ⟨rfl, ih _ _⟩

/-- The track diff preserves the period constants. -/
theorem diffPhase_timing (s : WorkerState) (m : Nat) :
    (diffPhase s m).1.periodNs = s.periodNs ∧
    (diffPhase s m).1.underrunNs = s.underrunNs ∧
    (diffPhase s m).1.overrunNs = s.overrunNs := by
  unfold diffPhase removedLoop addedLoop modifiedLoop
  split_ifs with h
  · simp [updDump, removedLoopAux_fields, addedLoopAux_fields, modifiedLoopAux_fields]
  · exact ⟨rfl, rfl, rfl⟩

/-- Without an engine the track diff emits no events, allocates no engine
and leaves the mix buffer alone. -/
theorem diffPhase_none (s : WorkerState) (m : Nat) (hm : s.mixer = none) :
    (diffPhase s m).1.mixer = none ∧
    (diffPhase s m).1.mixBuffer = s.mixBuffer ∧
    (diffPhase s m).2 = [] := by
  unfold diffPhase removedLoop addedLoop modifiedLoop
  split_ifs with h
  · simp [updDump, hm, removedLoopAux_fields, addedLoopAux_fields,
      modifiedLoopAux_fields, removedLoopAux_none, addedLoopAux_none,
      modifiedLoopAux_none]
  · exact ⟨hm, rfl, rfl⟩

/-- C2: the track diff processes removed, then added, then modified slots in
that strict order: its event trace is the concatenation of the three loops'
traces, the removed loop emits only handle releases, and the added and
modified loops emit no release (the modified loop also no allocation).  On
the concrete scenario of the spec (previous mask 0b0011 applied as handles
5 and 6, current mask 0b0110), the cycle releases slot 0's handle 5 before
allocating handle 0 for slot 2, and slot 1's handle and generation are
untouched. -/
theorem fastMixer_C2 :
    ((step wC2 inC2).trace =
      [Event.deleteTrackName 5, Event.getTrackName 0,
       Event.setBufferProvider 0 102,
       Event.setParameter 0 ParamClass.TRACK ParamKey.MAIN_BUFFER PVal.buf,
       Event.enable 0, Event.process] ∧
     ((step wC2 inC2).toNext.map fun s2 => (s2.fastTrackNames 1, s2.generations 1)) =
       some (6, 1)) ∧
    (∀ (s : WorkerState) (m : Nat),
      (diffPhase s m).2 =
        if s.current.st.mFastTracksGen ≠ s.fastTracksGen then
          (removedLoop s.current.st
            (Nat.land m (not32 (w32 s.current.st.mTrackMask))) s).2 ++
          (addedLoop s.current.st
            (Nat.land (w32 s.current.st.mTrackMask) (not32 m))
            (removedLoop s.current.st
              (Nat.land m (not32 (w32 s.current.st.mTrackMask))) s).1).2 ++
          (modifiedLoop s.current.st
            (Nat.land (w32 s.current.st.mTrackMask) m)
            (addedLoop s.current.st
              (Nat.land (w32 s.current.st.mTrackMask) (not32 m))
              (removedLoop s.current.st
                (Nat.land m (not32 (w32 s.current.st.mTrackMask))) s).1).1).2
        else []) ∧
    (∀ (cur : FastMixerState) (mask : Nat) (s : WorkerState),
      (removedLoop cur mask s).2.all Event.isDeleteTrackEv = true) ∧
    (∀ (cur : FastMixerState) (mask : Nat) (s : WorkerState),
      (addedLoop cur mask s).2.all (fun e => !e.isDeleteTrackEv) = true) ∧
    (∀ (cur : FastMixerState) (mask : Nat) (s : WorkerState),
      (modifiedLoop cur mask s).2.all
        (fun e => !e.isDeleteTrackEv && !e.isGetTrackEv) = true) := by
  refine ⟨⟨by decide, by decide⟩, ?_, ?_, ?_, ?_⟩
  · intro s m
    unfold diffPhase removedLoop addedLoop modifiedLoop
    split_ifs with h
    · simp only [removedLoopAux_fields, addedLoopAux_fields]
    · rfl
  · exact fun cur mask s => removedLoopAux_kinds cur 32 mask s
  · exact fun cur mask s => addedLoopAux_kinds cur 32 mask s
  · exact fun cur mask s => modifiedLoopAux_kinds cur 32 mask s

/-- C5: on a reconfiguration with positive frame count and sample rate the
period constants are recomputed as the integer parts of
frame_count * 1e9 / sample_rate, of 1.75 times that ideal period
(7 * frame_count * 1e9 / (4 * sample_rate)) and of 0.25 times it
(frame_count * 1e9 / (4 * sample_rate)); for frame_count 192 and sample
rate 48000 this gives exactly 4,000,000 ns, 7,000,000 ns and 1,000,000 ns. -/
theorem fastMixer_C5 (s : WorkerState)
    (hsink : s.current.st.mOutputSinkGen = s.outputSinkGen)
    (hfc : s.current.st.mFrameCount ≠ s.previous.st.mFrameCount)
    (hpos : 0 < s.current.st.mFrameCount) (hsr : 0 < s.sampleRate) :
    (stateChange s).1.periodNs =
      ((s.current.st.mFrameCount * 1000000000) / s.sampleRate : Nat) ∧
    (stateChange s).1.underrunNs =
      ((7 * (s.current.st.mFrameCount * 1000000000)) / (4 * s.sampleRate) : Nat) ∧
    (stateChange s).1.overrunNs =
      ((s.current.st.mFrameCount * 1000000000) / (4 * s.sampleRate) : Nat) ∧
    (stateChange wC5).1.periodNs = 4000000 ∧
    (stateChange wC5).1.underrunNs = 7000000 ∧
    (stateChange wC5).1.overrunNs = 1000000 := by
  have harith1 : (s.current.st.mFrameCount * 1750000000) / s.sampleRate =
      (7 * (s.current.st.mFrameCount * 1000000000)) / (4 * s.sampleRate) := by
    have h1 : 7 * (s.current.st.mFrameCount * 1000000000) =
        (s.current.st.mFrameCount * 1750000000) * 4 := by ring
    rw [h1, Nat.mul_comm 4 s.sampleRate,
      Nat.mul_div_mul_right _ _ (by norm_num : (0:Nat) < 4)]
  have harith2 : (s.current.st.mFrameCount * 250000000) / s.sampleRate =
      (s.current.st.mFrameCount * 1000000000) / (4 * s.sampleRate) := by
    have h1 : s.current.st.mFrameCount * 1000000000 =
        (s.current.st.mFrameCount * 250000000) * 4 := by ring
    rw [h1, Nat.mul_comm 4 s.sampleRate,
      Nat.mul_div_mul_right _ _ (by norm_num : (0:Nat) < 4)]
  have halloc :
      (reconfigPhase s s.current.st.mFrameCount).1.periodNs =
        ((s.current.st.mFrameCount * 1000000000) / s.sampleRate : Nat) ∧
      (reconfigPhase s s.current.st.mFrameCount).1.underrunNs =
        ((s.current.st.mFrameCount * 1750000000) / s.sampleRate : Nat) ∧
      (reconfigPhase s s.current.st.mFrameCount).1.overrunNs =
        ((s.current.st.mFrameCount * 250000000) / s.sampleRate : Nat) := by
    refine ⟨?_, ?_, ?_⟩ <;>
      (simp only [reconfigPhase]
       split_ifs with hal
       · rfl
       · exact absurd ⟨hpos, hsr⟩ hal)
  have hd := diffPhase_timing (reconfigPhase s s.current.st.mFrameCount).1 0
  refine ⟨?_, ?_, ?_, by decide, by decide, by decide⟩
  · show (stateChange s).1.periodNs = _
    simp only [stateChange]
    split_ifs with h1 h2 h2
    · exact absurd hsink h1
    · exact absurd hsink h1
    · exact hd.1.trans halloc.1
    · exact absurd (Or.inr hfc) h2
  · show (stateChange s).1.underrunNs = _
    simp only [stateChange]
    split_ifs with h1 h2 h2
    · exact absurd hsink h1
    · exact absurd hsink h1
    · exact hd.2.1.trans (halloc.2.1.trans (congrArg (fun n : Nat => (n : Int)) harith1))
    · exact absurd (Or.inr hfc) h2
  · show (stateChange s).1.overrunNs = _
    simp only [stateChange]
    split_ifs with h1 h2 h2
    · exact absurd hsink h1
    · exact absurd hsink h1
    · exact hd.2.2.trans (halloc.2.2.trans (congrArg (fun n : Nat => (n : Int)) harith2))
    · exact absurd (Or.inr hfc) h2

/-- C5 witness: the reconfiguration of `wC5` (192 frames, 48 kHz sink)
computes the period constants 4 ms, 7 ms and 1 ms. -/
theorem fastMixer_C5_witness :
    (stateChange wC5).1.periodNs =
      ((wC5.current.st.mFrameCount * 1000000000) / wC5.sampleRate : Nat) ∧
    (stateChange wC5).1.underrunNs =
      ((7 * (wC5.current.st.mFrameCount * 1000000000)) / (4 * wC5.sampleRate) : Nat) ∧
    (stateChange wC5).1.overrunNs =
      ((wC5.current.st.mFrameCount * 1000000000) / (4 * wC5.sampleRate) : Nat) ∧
    (stateChange wC5).1.periodNs = 4000000 ∧
    (stateChange wC5).1.underrunNs = 7000000 ∧
    (stateChange wC5).1.overrunNs = 1000000 :=
  fastMixer_C5 wC5 rfl (by decide) (by decide) (by decide)

/-- Without an engine, the mix step does nothing but possibly demote the
buffer state. -/
theorem mixPhase_no_mixer (s : WorkerState) (inp : CycleInput) (c : Command)
    (hm : s.mixer = none) :
    (mixPhase s inp c).1.mixer = none ∧
    (mixPhase s inp c).1.mixBuffer = s.mixBuffer ∧
    (mixPhase s inp c).2 = [] := by
  unfold mixPhase
  rw [if_neg (by simp [hm])]
  split_ifs <;> exact ⟨hm, rfl, rfl⟩

/-- Without a mix buffer, the write step is skipped entirely. -/
theorem writePhase_no_buffer (s : WorkerState) (inp : CycleInput) (c : Command)
    (fc : Nat) (hb : s.mixBuffer = none) :
    writePhase s inp c fc = (s, []) := by
  unfold writePhase
  rw [if_neg (by simp [hb])]

/-- A reconfiguration requested with a zero frame count or zero sample rate
releases everything, allocates nothing and (absent an engine and a buffer)
emits no event. -/
theorem reconfigPhase_invalid (t : WorkerState) (fc : Nat)
    (hm : t.mixer = none) (hb : t.mixBuffer = none)
    (hinv : fc = 0 ∨ t.sampleRate = 0) :
    (reconfigPhase t fc).1.mixer = none ∧
    (reconfigPhase t fc).1.mixBuffer = none ∧
    (reconfigPhase t fc).2 = [] := by
  simp only [reconfigPhase, hm, hb, Option.isSome_none, Bool.false_eq_true,
    if_false, List.nil_append]
  split_ifs with hal
  · exfalso
    have h1 : 0 < fc := hal.1
    have h2 : 0 < t.sampleRate := hal.2
    rcases hinv with h0 | h0 <;> omega
  · refine ⟨rfl, rfl, ?_⟩
    simp

/-- An invalid reconfiguration followed by the forced track diff leaves the
worker without engine and buffer and emits no event. -/
theorem reconfigDiff_invalid (t : WorkerState) (fc : Nat)
    (hm : t.mixer = none) (hb : t.mixBuffer = none)
    (hinv : fc = 0 ∨ t.sampleRate = 0) :
    (diffPhase (reconfigPhase t fc).1 0).1.mixer = none ∧
    (diffPhase (reconfigPhase t fc).1 0).1.mixBuffer = none ∧
    (reconfigPhase t fc).2 ++ (diffPhase (reconfigPhase t fc).1 0).2 = [] := by
  have hri := reconfigPhase_invalid t fc hm hb hinv
  have hdn := diffPhase_none (reconfigPhase t fc).1 0 hri.1
  refine ⟨hdn.1, hdn.2.1.trans hri.2.1, ?_⟩
  rw [hri.2.2, hdn.2.2]
  rfl

/-- When the worker holds no engine and no buffer and the (possibly
re-bound) configuration is invalid (zero frame count or zero sample rate),
the state-change handling does not instantiate the engine, allocates no
buffer, and performs no engine action. -/
theorem stateChange_no_engine (s : WorkerState)
    (hm : s.mixer = none) (hb : s.mixBuffer = none)
    (hinv : s.current.st.mFrameCount = 0 ∨ (sinkFormatAfter s).2 = 0) :
    (stateChange s).1.mixer = none ∧
    (stateChange s).1.mixBuffer = none ∧
    (stateChange s).2 = [] := by
  simp only [stateChange]
  split_ifs with hsg hrc hrc2
  · have h := reconfigDiff_invalid
      { s with outputSink := s.current.st.mOutputSink
             , outputSinkGen := s.current.st.mOutputSinkGen
             , format := (sinkFormatAfter s).1
             , sampleRate := (sinkFormatAfter s).2 }
      s.current.st.mFrameCount hm hb hinv
    exact ⟨h.1, h.2.1, h.2.2⟩
  · have h := diffPhase_none
      { s with outputSink := s.current.st.mOutputSink
             , outputSinkGen := s.current.st.mOutputSinkGen
             , format := (sinkFormatAfter s).1
             , sampleRate := (sinkFormatAfter s).2 }
      (w32 s.previous.st.mTrackMask) hm
    exact ⟨h.1, h.2.1.trans hb, by simp [h.2.2]⟩
  · have hinv2 : s.current.st.mFrameCount = 0 ∨ s.sampleRate = 0 := by
      rcases hinv with h0 | h0
      · exact Or.inl h0
      · right
        have h3 : (sinkFormatAfter s).2 = s.sampleRate := by
          unfold sinkFormatAfter
          rw [if_neg hsg]
        omega
    have h := reconfigDiff_invalid s s.current.st.mFrameCount hm hb hinv2
    exact ⟨h.1, h.2.1, h.2.2⟩
  · have h := diffPhase_none s (w32 s.previous.st.mTrackMask) hm
    exact ⟨h.1, h.2.1.trans hb, by simp [h.2.2]⟩

/-- A working cycle that starts without an engine and without a buffer and
whose configuration stays invalid runs no engine `process()`, no sink
write, allocates nothing, and ends without engine and buffer. -/
theorem workCycle_no_engine (s : WorkerState) (inp : CycleInput) (c : Command)
    (hm : s.mixer = none) (hb : s.mixBuffer = none)
    (hinv : s.current.st.mFrameCount = 0 ∨ (sinkFormatAfter s).2 = 0) :
    (workCycle s inp c).1.mixer = none ∧
    (workCycle s inp c).1.mixBuffer = none ∧
    (workCycle s inp c).2 = [] := by
  simp only [workCycle]
  split_ifs with hsc
  · have hs := stateChange_no_engine s hm hb hinv
    have hmx := mixPhase_no_mixer (stateChange s).1 inp c hs.1
    have hwr := writePhase_no_buffer (mixPhase (stateChange s).1 inp c).1 inp c
      s.current.st.mFrameCount (hmx.2.1.trans hs.2.1)
    have ht := timing_keep
      (workPhase (stateChange s).1 inp c s.current.st.mFrameCount).1
      inp.clockOk inp.newTs
    refine ⟨?_, ?_, ?_⟩
    · rw [ht.2.2.2.2.2.2.2.1]
      show (workPhase (stateChange s).1 inp c s.current.st.mFrameCount).1.mixer = none
      simp only [workPhase]
      rw [hwr]
      exact hmx.1
    · rw [ht.2.2.2.2.2.2.2.2]
      show (workPhase (stateChange s).1 inp c s.current.st.mFrameCount).1.mixBuffer = none
      simp only [workPhase]
      rw [hwr]
      exact hmx.2.1.trans hs.2.1
    · show (stateChange s).2 ++
        (workPhase (stateChange s).1 inp c s.current.st.mFrameCount).2 = []
      simp only [workPhase]
      rw [hs.2.2, hmx.2.2, hwr]
      rfl
  · have hmx := mixPhase_no_mixer s inp c hm
    have hwr := writePhase_no_buffer (mixPhase s inp c).1 inp c
      s.current.st.mFrameCount (hmx.2.1.trans hb)
    have ht := timing_keep (workPhase s inp c s.current.st.mFrameCount).1
      inp.clockOk inp.newTs
    refine ⟨?_, ?_, ?_⟩
    · rw [ht.2.2.2.2.2.2.2.1]
      show (workPhase s inp c s.current.st.mFrameCount).1.mixer = none
      simp only [workPhase]
      rw [hwr]
      exact hmx.1
    · rw [ht.2.2.2.2.2.2.2.2]
      show (workPhase s inp c s.current.st.mFrameCount).1.mixBuffer = none
      simp only [workPhase]
      rw [hwr]
      exact hmx.2.1.trans hb
    · show [] ++ (workPhase s inp c s.current.st.mFrameCount).2 = []
      simp only [workPhase]
      rw [hmx.2.2, hwr]
      rfl

/-- C9: while the worker observes a snapshot whose frame count is zero or
whose sink sample rate is zero, it never instantiates the mixing engine,
never allocates the mix buffer, and skips the engine `process()` and sink
`write()` calls: a cycle starting without engine and buffer under an
invalid configuration emits no process, write or engine-instantiation
event and ends again without engine and buffer. -/
theorem fastMixer_C9 (s : WorkerState) (inp : CycleInput)
    (hm : s.mixer = none) (hb : s.mixBuffer = none)
    (hinv : (afterPoll s inp).current.st.mFrameCount = 0 ∨
            (sinkFormatAfter (afterPoll s inp)).2 = 0) :
    (step s inp).trace.all
      (fun e => !e.isProcessEv && !e.isWriteEv && !e.isNewMixerEv) = true ∧
    ∀ s2, (step s inp).toNext = some s2 →
      s2.mixer = none ∧ s2.mixBuffer = none := by
  have hmt : (afterPoll s inp).mixer = none := (afterPoll_mixer s inp).trans hm
  have hbt : (afterPoll s inp).mixBuffer = none :=
    (afterPoll_mixBuffer s inp).trans hb
  cases hcmd : stepCommand s inp with
  | INITIAL =>
    simp only [step, hcmd, StepResult.trace, StepResult.toNext]
    refine ⟨rfl, fun s2 h2 => ?_⟩
    cases h2
    exact ⟨hmt, hbt⟩
  | HOT_IDLE =>
    simp only [step, hcmd, StepResult.trace, StepResult.toNext]
    refine ⟨rfl, fun s2 h2 => ?_⟩
    cases h2
    exact ⟨hmt, hbt⟩
  | COLD_IDLE =>
    simp only [step, hcmd]
    split_ifs with hcg hfp <;>
      (simp only [StepResult.trace, StepResult.toNext]
       refine ⟨rfl, fun s2 h2 => ?_⟩
       cases h2
       exact ⟨hmt, hbt⟩)
  | EXIT =>
    simp only [step, hcmd, StepResult.trace, StepResult.toNext]
    refine ⟨?_, fun s2 h2 => by cases h2⟩
    split_ifs <;> rfl
  | MIX =>
    simp only [step, hcmd, StepResult.trace, StepResult.toNext]
    have hwc := workCycle_no_engine
      (updDump (afterPoll s inp) fun d => { d with mCommand := Command.MIX })
      inp .MIX hmt hbt hinv
    refine ⟨?_, fun s2 h2 => ?_⟩
    · rw [hwc.2.2]
      rfl
    · cases h2
      exact ⟨hwc.1, hwc.2.1⟩
  | WRITE =>
    simp only [step, hcmd, StepResult.trace, StepResult.toNext]
    have hwc := workCycle_no_engine
      (updDump (afterPoll s inp) fun d => { d with mCommand := Command.WRITE })
      inp .WRITE hmt hbt hinv
    refine ⟨?_, fun s2 h2 => ?_⟩
    · rw [hwc.2.2]
      rfl
    · cases h2
      exact ⟨hwc.1, hwc.2.1⟩
  | MIX_WRITE =>
    simp only [step, hcmd, StepResult.trace, StepResult.toNext]
    have hwc := workCycle_no_engine
      (updDump (afterPoll s inp) fun d => { d with mCommand := Command.MIX_WRITE })
      inp .MIX_WRITE hmt hbt hinv
    refine ⟨?_, fun s2 h2 => ?_⟩
    · rw [hwc.2.2]
      rfl
    · cases h2
      exact ⟨hwc.1, hwc.2.1⟩

/-- C9 witness: at worker start (no engine, zero frame count) a cycle emits
no process, write or engine-instantiation event, and the engine and buffer
remain unallocated. -/
theorem fastMixer_C9_witness :
    (step initWorker inDflt).trace.all
      (fun e => !e.isProcessEv && !e.isWriteEv && !e.isNewMixerEv) = true ∧
    ∀ s2, (step initWorker inDflt).toNext = some s2 →
      s2.mixer = none ∧ s2.mixBuffer = none :=
  fastMixer_C9 initWorker inDflt rfl rfl (Or.inl (by decide))

/-- C10: when `poll()` returns the nothing-new sentinel, the worker leaves
`current`, `previous`, the dump binding and the applied generations
unchanged and re-executes the command of the current snapshot; before any
state has been published it runs with the built-in initial state, whose
command is INITIAL, so it hot-idles (1 ms sleep, empty action trace)
without touching the engine or the sink. -/
theorem fastMixer_C10 (s : WorkerState) (inp : CycleInput)
    (hpoll : inp.poll = none)
    (hprev : s.previous.addr = s.current.addr ∨ s.current.st.mCommand.isIdle = true)
    (hcold : s.current.st.mCommand = .COLD_IDLE → s.current.st.mColdGen = s.coldGen)
    (hnx : s.current.st.mCommand ≠ .EXIT) :
    stepCommand s inp = s.current.st.mCommand ∧
    initialState.mCommand = .INITIAL ∧
    ((step s inp).toNext.map fun s2 => s2.current) = some s.current ∧
    ((step s inp).toNext.map fun s2 => s2.previous) = some s.previous ∧
    ((step s inp).toNext.map fun s2 => s2.dumpAddr) = some s.dumpAddr ∧
    ((step s inp).toNext.map fun s2 => s2.generations) = some s.generations ∧
    ((step s inp).toNext.map fun s2 => s2.fastTracksGen) = some s.fastTracksGen ∧
    ((step s inp).toNext.map fun s2 => s2.outputSinkGen) = some s.outputSinkGen ∧
    ((step s inp).toNext.map fun s2 => s2.coldGen) = some s.coldGen ∧
    (s.current.st.mCommand = .INITIAL →
      (step s inp).trace = [] ∧
      ((step s inp).toNext.map fun s2 => s2.sleepNs) = some FAST_HOT_IDLE_NS) := by
  have hcmd : stepCommand s inp = s.current.st.mCommand := by
    unfold stepCommand pollNext
    rw [hpoll]
  have ha : afterPoll s inp = { s with sleepNs := FAST_DEFAULT_NS } :=
    afterPoll_poll_none s inp hpoll
  refine ⟨hcmd, rfl, ?_⟩
  cases hc : s.current.st.mCommand with
  | EXIT => exact absurd hc hnx
  | INITIAL =>
    simp [step, hcmd, hc, ha, StepResult.toNext, StepResult.trace, updDump]
  | HOT_IDLE =>
    simp [step, hcmd, hc, ha, StepResult.toNext, StepResult.trace, updDump]
  | COLD_IDLE =>
    simp only [step, hcmd, hc, ha]
    rw [if_neg (by simp [updDump, hcold hc])]
    simp [StepResult.toNext, StepResult.trace, updDump]
  | MIX =>
    have hpa : s.previous.addr = s.current.addr := by
      rcases hprev with h | h
      · exact h
      · rw [hc] at h
        exact absurd h (by decide)
    simp only [step, hcmd, hc, ha, StepResult.toNext, StepResult.trace,
      Option.map_some']
    have hk := workCycle_keep
      (updDump { s with sleepNs := FAST_DEFAULT_NS }
        fun d => { d with mCommand := Command.MIX }) inp .MIX hpa.symm
    rw [hk.1, hk.2.1, hk.2.2.1, hk.2.2.2.1, hk.2.2.2.2.1, hk.2.2.2.2.2.1,
      hk.2.2.2.2.2.2.1]
    exact ⟨rfl, rfl, rfl, rfl, rfl, rfl, rfl, by simp⟩
  | WRITE =>
    have hpa : s.previous.addr = s.current.addr := by
      rcases hprev with h | h
      · exact h
      · rw [hc] at h
        exact absurd h (by decide)
    simp only [step, hcmd, hc, ha, StepResult.toNext, StepResult.trace,
      Option.map_some']
    have hk := workCycle_keep
      (updDump { s with sleepNs := FAST_DEFAULT_NS }
        fun d => { d with mCommand := Command.WRITE }) inp .WRITE hpa.symm
    rw [hk.1, hk.2.1, hk.2.2.1, hk.2.2.2.1, hk.2.2.2.2.1, hk.2.2.2.2.2.1,
      hk.2.2.2.2.2.2.1]
    exact ⟨rfl, rfl, rfl, rfl, rfl, rfl, rfl, by simp⟩
  | MIX_WRITE =>
    have hpa : s.previous.addr = s.current.addr := by
      rcases hprev with h | h
      · exact h
      · rw [hc] at h
        exact absurd h (by decide)
    simp only [step, hcmd, hc, ha, StepResult.toNext, StepResult.trace,
      Option.map_some']
    have hk := workCycle_keep
      (updDump { s with sleepNs := FAST_DEFAULT_NS }
        fun d => { d with mCommand := Command.MIX_WRITE }) inp .MIX_WRITE hpa.symm
    rw [hk.1, hk.2.1, hk.2.2.1, hk.2.2.2.1, hk.2.2.2.2.1, hk.2.2.2.2.2.1,
      hk.2.2.2.2.2.2.1]
    exact ⟨rfl, rfl, rfl, rfl, rfl, rfl, rfl, by simp⟩

/-- C10 witness: at worker start (both references on the built-in initial
state, nothing published) a cycle re-runs INITIAL, changes no reference and
hot-idles with an empty action trace. -/
theorem fastMixer_C10_witness :
    stepCommand initWorker inDflt = initWorker.current.st.mCommand ∧
    initialState.mCommand = .INITIAL ∧
    ((step initWorker inDflt).toNext.map fun s2 => s2.current) =
      some initWorker.current ∧
    ((step initWorker inDflt).toNext.map fun s2 => s2.previous) =
      some initWorker.previous ∧
    ((step initWorker inDflt).toNext.map fun s2 => s2.dumpAddr) =
      some initWorker.dumpAddr ∧
    ((step initWorker inDflt).toNext.map fun s2 => s2.generations) =
      some initWorker.generations ∧
    ((step initWorker inDflt).toNext.map fun s2 => s2.fastTracksGen) =
      some initWorker.fastTracksGen ∧
    ((step initWorker inDflt).toNext.map fun s2 => s2.outputSinkGen) =
      some initWorker.outputSinkGen ∧
    ((step initWorker inDflt).toNext.map fun s2 => s2.coldGen) =
      some initWorker.coldGen ∧
    (initWorker.current.st.mCommand = .INITIAL →
      (step initWorker inDflt).trace = [] ∧
      ((step initWorker inDflt).toNext.map fun s2 => s2.sleepNs) =
        some FAST_HOT_IDLE_NS) :=
  fastMixer_C10 initWorker inDflt rfl (Or.inl rfl) (by decide) (by decide)

end android
